import Mathlib

/-!
Shallow embedding of the RedditToxicReportBot moderation pipeline
(src/bot.py and src/modlog_refresh.py) and proofs about it.

Modelling conventions:
* Python floats (scores, timestamps, waits) are modelled as exact
  rationals (`Rat`); epoch timestamps that the code only compares and
  subtracts are modelled as `Int` seconds.
* An ISO timestamp string that the code parses with `strptime` is
  modelled as `Option Int`: `none` stands for a missing or unparseable
  value (the `ValueError` branch).
* Network calls (Reddit fetches, LLM completions, scorer APIs) are
  modelled as explicit oracle arguments, so every embedded function is
  a pure total function of its inputs.
-/

set_option linter.unusedVariables false
set_option linter.unnecessarySimpa false

namespace ToxicReportBot

/-- Maximum of a list of rationals with a default value for the empty
list, mirroring Python `max(xs) if xs else d` / `max(xs, default=d)`. -/
def listMax (l : List Rat) (d : Rat) : Rat :=
  match l with
  | [] => d
  | x :: xs => xs.foldl max x

/-- Occurrence of `sub` as a contiguous sublist, used to model the
Python substring test `sub in s`. -/
def subOccurs (sub : List Char) : List Char → Bool
  | [] => sub.isEmpty
  | c :: rest => sub.isPrefixOf (c :: rest) || subOccurs sub rest

/-- Python substring containment `sub in s`. -/
def strContains (s sub : String) : Bool := subOccurs sub.data s.data

/-- Python `int(x)` on a float: truncation toward zero. -/
def pyTrunc (x : Rat) : Int := if x < 0 then x.ceil else x.floor

/-- Numeric value of a list of decimal digit characters. -/
def digitsToNat (l : List Char) : Nat := l.foldl (fun n c => n * 10 + (c.toNat - 48)) 0

/-- Splits the longest leading run of decimal digits off a char list. -/
def takeDigits : List Char → List Char × List Char
  | [] => ([], [])
  | c :: rest =>
    if c.isDigit then
      let (d, r) := takeDigits rest
      (c :: d, r)
    else ([], c :: rest)

/-- Python str.lower, modelled characterwise. -/
def pyLower (s : String) : String := String.mk (s.data.map Char.toLower)

/-- Python str.upper, modelled characterwise. -/
def pyUpper (s : String) : String := String.mk (s.data.map Char.toUpper)

/-- Python str.strip: drop leading and trailing whitespace. -/
def pyStrip (s : String) : String :=
  String.mk (((s.data.dropWhile Char.isWhitespace).reverse.dropWhile Char.isWhitespace).reverse)

/-- Python s.startswith(p). -/
def pyStartsWith (s p : String) : Bool := p.data.isPrefixOf s.data

/-- Python s.split(sep) specialised to the newline separator. -/
def splitLinesAux : List Char → List Char → List String
  | [], acc => [String.mk acc.reverse]
  | '\n' :: rest, acc => String.mk acc.reverse :: splitLinesAux rest []
  | c :: rest, acc => splitLinesAux rest (c :: acc)

/-- Python s.split(chr(10)). -/
def pySplitLines (s : String) : List String := splitLinesAux s.data []

/-- Python s.replace(chr(116) + chr(49) + chr(95), empty), namely the
clean_id computation comment_id.replace of the outcome checkers:
left-to-right removal of every t1_ occurrence. -/
def replaceT1 : List Char → List Char
  | [] => []
  | 't' :: '1' :: '_' :: rest => replaceT1 rest
  | c :: rest => c :: replaceT1 rest

/-- String version of replaceT1. -/
def pyRemoveT1 (s : String) : String := String.mk (replaceT1 s.data)

/-- Python sep.join(parts). -/
def joinWith (sep : String) : List String → String
  | [] => ""
  | [x] => x
  | x :: y :: rest => x ++ sep ++ joinWith sep (y :: rest)

/-- Two-decimal rendering of a nonnegative rational, modelling the
`f"{x:.2f}"` format used in log and reason strings (decimal rounding of
the underlying binary float is approximated by rational rounding). -/
def fmt2core (x : Rat) : String :=
  let scaled : Int := (100 * x + 1 / 2).floor
  let ip := scaled / 100
  let fp := (scaled % 100).toNat
  toString ip ++ "." ++ (if fp < 10 then "0" ++ toString fp else toString fp)

/-- Two-decimal rendering of a rational, `f"{x:.2f}"` style. -/
def fmt2 (x : Rat) : String := if x < 0 then "-" ++ fmt2core (-x) else fmt2core x

/-- Python `text[:n]` on the character level. -/
def takeChars (n : Nat) (s : String) : String := String.mk (s.data.take n)

/-- Verdict enum of src/bot.py: classification results from LLM analysis. -/
inductive Verdict where
  | REPORT
  | BENIGN
deriving Repr, DecidableEq

/-- AnalysisResult dataclass of src/bot.py: result of one LLM analysis. -/
structure AnalysisResult where
  verdict : Verdict
  reason : String
  confidence : String
  raw_response : String
  detoxify_score : Rat
deriving Repr, DecidableEq

/-- Python `s.rfind(' ')` over a char list: index of the last space
character, `-1` when there is none. -/
def rfindSpace (l : List Char) : Int :=
  match l.reverse.findIdx? (fun c => c = ' ') with
  | some j => (l.length : Int) - 1 - j
  | none => -1

/-- build_report_reason of src/bot.py: Reddit report reasons have a
roughly 100 character limit, so long reasons are truncated to 97
characters, preferring a cut at the last space past position 50, and
suffixed with three dots. -/
def build_report_reason (result : AnalysisResult) : String :=
  let reason := result.reason
  if reason.length ≤ 100 then reason
  else
    let truncated := reason.data.take 97
    let last_space := rfindSpace truncated
    let truncated2 := if last_space > 50 then truncated.take last_space.toNat else truncated
    String.mk truncated2 ++ "..."

/-- One entry of reported_comments.json (a ReportedRecord): created by
track_reported_comment with outcome "pending", later resolved in place
by the outcome checkers. -/
structure TrackedRecord where
  comment_id : String
  permalink : String
  text : String
  groq_reason : String
  detoxify_score : Rat
  is_top_level : Bool
  reported_at : Option Int
  outcome : String
  checked_at : Option Int
deriving Repr, DecidableEq

/-- track_reported_comment of src/bot.py: append a newly reported
comment to the tracking store unless its id is already present. -/
def track_reported_comment (comments : List TrackedRecord) (comment_id permalink text groq_reason : String)
    (detoxify_score : Rat) (is_top_level : Bool) (now : Int) : List TrackedRecord :=
  if comments.any (fun c => c.comment_id == comment_id) then comments
  else
    comments ++ [{ comment_id := comment_id
                   permalink := permalink
                   text := takeChars 500 text
                   groq_reason := groq_reason
                   detoxify_score := detoxify_score
                   is_top_level := is_top_level
                   reported_at := some now
                   outcome := "pending"
                   checked_at := none }]

/-- Keep-test of cleanup_old_tracked: pending entries are kept, resolved
entries are kept while the age of checked_at is under max_age_days, and
entries with a missing or unparseable checked_at are kept. -/
def cleanupKeeps (now : Int) (max_age_days : Nat) (e : TrackedRecord) : Bool :=
  if e.outcome == "pending" then true
  else
    match e.checked_at with
    | some t => decide ((((now - t : Int) : Rat) / 86400) < (max_age_days : Rat))
    | none => true

/-- cleanup_old_tracked of src/bot.py: drop resolved entries older than
max_age_days, returning the surviving list and the number removed. -/
def cleanup_old_tracked (comments : List TrackedRecord) (now : Int) (max_age_days : Nat) :
    List TrackedRecord × Nat :=
  let filtered := comments.filter (cleanupKeeps now max_age_days)
  (filtered, comments.length - filtered.length)

/-- Spec-side removal predicate for C8: the entry is resolved and its
checked_at timestamp is at least max_age_days old. -/
def dueForRemoval (now : Int) (max_age_days : Nat) (e : TrackedRecord) : Bool :=
  e.outcome != "pending" &&
    (match e.checked_at with
     | some t => decide ((max_age_days : Rat) ≤ ((now - t : Int) : Rat) / 86400)
     | none => false)

/-- Result of fetching a tracked comment from Reddit during outcome
reconciliation: the comment is gone, the fetch raised some other
exception, or the comment loaded with the given body and removal flags. -/
inductive FetchResult where
  | notFound
  | fetchError
  | ok (body : String) (removed : Bool) (removed_by_category : Bool)
deriving Repr, DecidableEq

/-- Per-entry update of check_reported_outcomes (and of
check_and_track_false_positives, which hardcodes min_age_hours = 24):
resolved entries are skipped; pending entries younger than
min_age_hours are left alone; otherwise the live state of the comment
decides removed versus approved, stamping checked_at. -/
def reconcileEntry (fetch : String → FetchResult) (now : Int) (min_age_hours : Nat)
    (e : TrackedRecord) : TrackedRecord :=
  if e.outcome != "pending" then e
  else
    let tooYoung :=
      match e.reported_at with
      | some t => decide ((((now - t : Int) : Rat) / 3600) < (min_age_hours : Rat))
      | none => false
    if tooYoung then e
    else if e.comment_id == "" then e
    else
      match fetch (pyRemoveT1 e.comment_id) with
      | .notFound => { e with outcome := "removed", checked_at := some now }
      | .fetchError => e
      | .ok body removed rbc =>
        if body == "[removed]" || removed then { e with outcome := "removed", checked_at := some now }
        else if rbc then { e with outcome := "removed", checked_at := some now }
        else { e with outcome := "approved", checked_at := some now }

/-- Stats dictionary returned by the outcome checkers. -/
structure OutcomeStats where
  checked : Nat
  removed : Nat
  approved : Nat
  still_pending : Nat
  errors : Nat
deriving Repr, DecidableEq

/-- Zero-valued outcome stats. -/
def zeroStats : OutcomeStats := ⟨0, 0, 0, 0, 0⟩

/-- Componentwise sum of outcome stats. -/
def addStats (a b : OutcomeStats) : OutcomeStats :=
  ⟨a.checked + b.checked, a.removed + b.removed, a.approved + b.approved,
   a.still_pending + b.still_pending, a.errors + b.errors⟩

/-- Stats contribution of a single entry in the outcome-checking loops. -/
def entryStat (fetch : String → FetchResult) (now : Int) (min_age_hours : Nat)
    (e : TrackedRecord) : OutcomeStats :=
  if e.outcome != "pending" then zeroStats
  else
    let tooYoung :=
      match e.reported_at with
      | some t => decide ((((now - t : Int) : Rat) / 3600) < (min_age_hours : Rat))
      | none => false
    if tooYoung then ⟨0, 0, 0, 1, 0⟩
    else if e.comment_id == "" then zeroStats
    else
      match fetch (pyRemoveT1 e.comment_id) with
      | .notFound => ⟨1, 1, 0, 0, 0⟩
      | .fetchError => ⟨0, 0, 0, 0, 1⟩
      | .ok body removed rbc =>
        if body == "[removed]" || removed then ⟨1, 1, 0, 0, 0⟩
        else if rbc then ⟨1, 1, 0, 0, 0⟩
        else ⟨1, 0, 1, 0, 0⟩

/-- check_reported_outcomes of src/bot.py: walk the tracked store,
resolve mature pending entries against the live state of each comment,
and return the updated store together with counting stats. -/
def check_reported_outcomes (fetch : String → FetchResult) (now : Int) (min_age_hours : Nat)
    (comments : List TrackedRecord) : List TrackedRecord × OutcomeStats :=
  (comments.map (reconcileEntry fetch now min_age_hours),
   comments.foldl (fun s e => addStats s (entryStat fetch now min_age_hours e)) zeroStats)

/-- One entry of false_positives.json. -/
structure FalsePositiveRecord where
  comment_id : String
  permalink : String
  text : String
  groq_reason : String
  detoxify_score : Rat
  is_top_level : Bool
  reported_at : Option Int
  discovered_at : Int
deriving Repr, DecidableEq

/-- track_false_positive of src/bot.py: append a false-positive record
unless one with the same comment id already exists. -/
def track_false_positive (entries : List FalsePositiveRecord) (e : TrackedRecord) (now : Int) :
    List FalsePositiveRecord :=
  if entries.any (fun x => x.comment_id == e.comment_id) then entries
  else
    entries ++ [{ comment_id := e.comment_id
                  permalink := e.permalink
                  text := takeChars 1000 e.text
                  groq_reason := e.groq_reason
                  detoxify_score := e.detoxify_score
                  is_top_level := e.is_top_level
                  reported_at := e.reported_at
                  discovered_at := now }]

/-- Condition under which check_and_track_false_positives records a
false positive for an entry: the mature pending entry resolved to
approved (comment still readable and not flagged removed). -/
def fpTriggered (fetch : String → FetchResult) (now : Int) (e : TrackedRecord) : Bool :=
  (e.outcome == "pending") &&
    !(match e.reported_at with
      | some t => decide ((((now - t : Int) : Rat) / 3600) < (24 : Rat))
      | none => false) &&
    (e.comment_id != "") &&
    (match fetch (pyRemoveT1 e.comment_id) with
     | .ok body removed rbc => !(body == "[removed]" || removed) && !rbc
     | _ => false)

/-- check_and_track_false_positives of src/bot.py: same reconciliation
as check_reported_outcomes with a fixed 24 hour maturation window, and
every transition to approved also records a false positive. -/
def check_and_track_false_positives (fetch : String → FetchResult) (now : Int)
    (comments : List TrackedRecord) (fps : List FalsePositiveRecord) :
    List TrackedRecord × List FalsePositiveRecord × OutcomeStats :=
  (comments.map (reconcileEntry fetch now 24),
   comments.foldl (fun acc e => if fpTriggered fetch now e then track_false_positive acc e now else acc) fps,
   comments.foldl (fun s e => addStats s (entryStat fetch now 24 e)) zeroStats)

/-! ## LLMAnalyzer._parse_retry_time

The source applies `re.search` with the pattern
`(\d+h)?(\d+m(?!s))?(\d+(?:\.\d+)?s)?(\d+ms)?` to the lowercased error
text.  Every group of that pattern is optional, so the regex always
matches (possibly the empty string) at position 0, and `re.search`
returns that leftmost match; the four groups are therefore matched
greedily in sequence from the very start of the string.  The embedding
below implements exactly that semantics. -/

/-- Group `(\d+h)?` at the head of the char list: an hour count, or no
match (which leaves the position unchanged). -/
def grpHours (cs : List Char) : Option Nat × List Char :=
  let (d, r) := takeDigits cs
  match d, r with
  | [], _ => (none, cs)
  | _, 'h' :: r2 => (some (digitsToNat d), r2)
  | _, _ => (none, cs)

/-- Group `(\d+m(?!s))?` at the head of the char list: a minute count
whose `m` is not followed by `s`. -/
def grpMinutes (cs : List Char) : Option Nat × List Char :=
  let (d, r) := takeDigits cs
  match d, r with
  | [], _ => (none, cs)
  | _, 'm' :: 's' :: _ => (none, cs)
  | _, 'm' :: r2 => (some (digitsToNat d), r2)
  | _, _ => (none, cs)

/-- Group `(\d+(?:\.\d+)?s)?` at the head of the char list: a second
count with an optional fractional part. -/
def grpSeconds (cs : List Char) : Option Rat × List Char :=
  let (d, r) := takeDigits cs
  match d, r with
  | [], _ => (none, cs)
  | _, '.' :: r2 =>
    let (f, r3) := takeDigits r2
    match f, r3 with
    | [], _ => (none, cs)
    | _, 's' :: r4 =>
      (some ((digitsToNat d : Rat) + (digitsToNat f : Rat) / ((10 : Rat) ^ f.length)), r4)
    | _, _ => (none, cs)
  | _, 's' :: r2 => (some ((digitsToNat d : Rat)), r2)
  | _, _ => (none, cs)

/-- Group `(\d+ms)?` at the head of the char list: a millisecond count. -/
def grpMillis (cs : List Char) : Option Nat × List Char :=
  let (d, r) := takeDigits cs
  match d, r with
  | [], _ => (none, cs)
  | _, 'm' :: 's' :: r2 => (some (digitsToNat d), r2)
  | _, _ => (none, cs)

/-- LLMAnalyzer._parse_retry_time of src/bot.py: extract a wait time in
seconds from a rate-limit error text, returning none when the matched
duration is empty or zero. -/
def parse_retry_time (time_str : String) : Option Rat :=
  if time_str = "" then none
  else
    let cs := (pyLower time_str).data
    let (h, cs1) := grpHours cs
    let (m, cs2) := grpMinutes cs1
    let (s, cs3) := grpSeconds cs2
    let (ms, _) := grpMillis cs3
    let total : Rat :=
      (match h with | some v => (v : Rat) * 3600 | none => 0) +
      (match m with | some v => (v : Rat) * 60 | none => 0) +
      (match s with | some v => v | none => 0) +
      (match ms with | some v => (v : Rat) / 1000 | none => 0)
    if total > 0 then some total else none

/-! ## Auto-remove consensus (check_auto_remove_consensus) -/

/-- Score map: the numeric entries of the per-comment score dictionary.
Label names carry scorer-specific prefixes (openai_, perspective_, bare
names for Detoxify); non-numeric entries such as the _trigger_reasons
string are modelled separately. -/
abbrev ScoreMap := List (String × Rat)

/-- Values of the Detoxify partition of a score map: entries whose key
carries no openai_, perspective_ or underscore prefix. -/
def detoxPartition (scores : ScoreMap) : List Rat :=
  (scores.filter (fun kv =>
    !(pyStartsWith kv.1 "openai_" || pyStartsWith kv.1 "perspective_" || pyStartsWith kv.1 "_"))).map (fun kv => kv.2)

/-- Values of the partition of a score map selected by a key prefix. -/
def prefixPartition (p : String) (scores : ScoreMap) : List Rat :=
  (scores.filter (fun kv => pyStartsWith kv.1 p)).map (fun kv => kv.2)

/-- Auto-remove slice of the Config dataclass of src/bot.py. -/
structure AutoRemoveCfg where
  auto_remove_enabled : Bool
  auto_remove_require_models : List String
  auto_remove_min_consensus : Nat
  auto_remove_detoxify_min : Rat
  auto_remove_openai_min : Rat
  auto_remove_perspective_min : Rat
  auto_remove_on_pattern_match : Bool
deriving Repr, DecidableEq

/-- Fold step of the consensus loop of check_auto_remove_consensus: one
required model name is classified into the passed or failed list. -/
def consensusStep (scores : ScoreMap) (cfg : AutoRemoveCfg)
    (acc : List String × List String) (model : String) : List String × List String :=
  let m := pyLower model
  if m == "detoxify" then
    let mx := listMax (detoxPartition scores) 0
    if cfg.auto_remove_detoxify_min ≤ mx then (acc.1 ++ ["detoxify=" ++ fmt2 mx], acc.2)
    else (acc.1, acc.2 ++ ["detoxify=" ++ fmt2 mx ++ "<" ++ fmt2 cfg.auto_remove_detoxify_min])
  else if m == "openai" then
    let mx := listMax (prefixPartition "openai_" scores) 0
    if cfg.auto_remove_openai_min ≤ mx then (acc.1 ++ ["openai=" ++ fmt2 mx], acc.2)
    else (acc.1, acc.2 ++ ["openai=" ++ fmt2 mx ++ "<" ++ fmt2 cfg.auto_remove_openai_min])
  else if m == "perspective" then
    let mx := listMax (prefixPartition "perspective_" scores) 0
    if cfg.auto_remove_perspective_min ≤ mx then (acc.1 ++ ["perspective=" ++ fmt2 mx], acc.2)
    else (acc.1, acc.2 ++ ["perspective=" ++ fmt2 mx ++ "<" ++ fmt2 cfg.auto_remove_perspective_min])
  else acc

/-- check_auto_remove_consensus of src/bot.py: decide whether a comment
meets the consensus requirements for auto-removal, returning the
decision together with a reason string. -/
def check_auto_remove_consensus (scores : ScoreMap) (cfg : AutoRemoveCfg)
    (is_pattern_match : Bool) : Bool × String :=
  if !cfg.auto_remove_enabled then (false, "")
  else if is_pattern_match then
    if cfg.auto_remove_on_pattern_match then (true, "pattern_match") else (false, "")
  else if cfg.auto_remove_require_models.isEmpty then (false, "")
  else
    let pf := cfg.auto_remove_require_models.foldl (consensusStep scores cfg) ([], [])
    if cfg.auto_remove_min_consensus ≤ pf.1.length then
      (true, "consensus:" ++ joinWith "+" pf.1)
    else
      (false, "no_consensus:" ++ joinWith "+" pf.2)

/-- Pass test of a single required model name, exactly as the consensus
loop classifies it: one of the three known scorers whose partition
maximum meets its configured auto-remove minimum. -/
def modelPasses (scores : ScoreMap) (cfg : AutoRemoveCfg) (model : String) : Bool :=
  let m := pyLower model
  if m == "detoxify" then cfg.auto_remove_detoxify_min ≤ listMax (detoxPartition scores) 0
  else if m == "openai" then cfg.auto_remove_openai_min ≤ listMax (prefixPartition "openai_" scores) 0
  else if m == "perspective" then cfg.auto_remove_perspective_min ≤ listMax (prefixPartition "perspective_" scores) 0
  else false

/-- Number of configured required scorers that pass, following the
wording of the spec (C5): scorers whose maximum score in their own
prefix partition of the score map meets or exceeds that scorer's
configured auto-remove minimum. -/
def passCount (scores : ScoreMap) (cfg : AutoRemoveCfg) : Nat :=
  (cfg.auto_remove_require_models.filter (modelPasses scores cfg)).length

/-- Statement of claim C5 exactly as written: with auto-remove enabled
and no pattern match, auto-removal fires if and only if at least
auto_remove_min_consensus of the configured required scorers pass. -/
def c5ClaimStatement : Prop :=
  ∀ (scores : ScoreMap) (cfg : AutoRemoveCfg),
    cfg.auto_remove_enabled = true →
    ((check_auto_remove_consensus scores cfg false).1 = true ↔
      cfg.auto_remove_min_consensus ≤ passCount scores cfg)

/-! ## SmartPreFilter.should_analyze

The lexical rule predicates of src/bot.py (contains_slur,
contains_self_harm, contains_threat, ..., is_strongly_directed,
is_benign_exclamation) match word and phrase sets loaded from the
moderation_patterns.json data file, which is not part of the source
tree, through Python regexes.  They are therefore embedded as an
abstract valuation of the atomic checks on the text under review
(`TextChecks`), while the decision logic of should_analyze that
combines them is embedded faithfully. -/

/-- Kind returned by contains_dismissive_hostile: hard phrases escalate
on any reply, soft phrases only when strongly directed. -/
inductive DismissiveKind where
  | hard
  | soft
deriving Repr, DecidableEq

/-- Valuation of the atomic lexical checks of src/bot.py on one text. -/
structure TextChecks where
  regexMustEscalate : Bool
  slur : Bool
  selfHarm : Bool
  threat : Bool
  sexualViolence : Bool
  brigading : Bool
  violenceIllegal : Bool
  shillAccusation : Bool
  dismissive : Option DismissiveKind
  directInsult : Bool
  stronglyDirected : Bool
  weaklyDirected : Bool
  contextualTerm : Bool
  benignMatch : Bool
deriving Repr, DecidableEq

/-- is_benign_exclamation of src/bot.py: the benign regexes and phrase
list only apply when the text is not strongly directed at someone. -/
def is_benign_exclamation (c : TextChecks) : Bool :=
  if c.stronglyDirected then false else c.benignMatch

/-- Direct-insult arm of Layer 1 of should_analyze: insults escalate
only when strongly directed or in reply context. -/
def insultEscalation (c : TextChecks) (is_top_level : Bool) : Option String :=
  if c.directInsult && (c.stronglyDirected || !is_top_level) then
    some ("must_escalate:insult+" ++ (if c.stronglyDirected then "directed" else "reply"))
  else none

/-- Layer 1 of should_analyze of src/bot.py: the must-escalate pattern
chain, evaluated in the fixed source order with first match winning. -/
def mustEscalateReason (c : TextChecks) (is_top_level : Bool) : Option String :=
  if c.regexMustEscalate then some "must_escalate:regex_pattern"
  else if c.slur then some "must_escalate:slur"
  else if c.selfHarm then some "must_escalate:self-harm"
  else if c.threat then some "must_escalate:threat"
  else if c.sexualViolence then some "must_escalate:sexual_violence"
  else if c.brigading then some "must_escalate:brigading"
  else if c.violenceIllegal then some "must_escalate:violence_illegal"
  else if c.stronglyDirected && c.shillAccusation then some "must_escalate:shill_accusation"
  else
    match c.dismissive with
    | some .hard =>
      if c.stronglyDirected || !is_top_level then
        some ("must_escalate:dismissive_hard+" ++ (if c.stronglyDirected then "directed" else "reply"))
      else insultEscalation c is_top_level
    | some .soft =>
      if c.stronglyDirected then some "must_escalate:dismissive_soft+directed"
      else insultEscalation c is_top_level
    | none => insultEscalation c is_top_level

/-- Pre-filter slice of the Config dataclass of src/bot.py. -/
structure FilterConfig where
  detoxify_can_escalate : Bool
  openai_moderation_enabled : Bool
  openai_moderation_mode : String
  perspective_enabled : Bool
  perspective_mode : String
  threshold_threat : Rat
  threshold_severe_toxicity : Rat
  threshold_identity_attack : Rat
  threshold_insult_directed : Rat
  threshold_insult_not_directed : Rat
  threshold_toxicity_directed : Rat
  threshold_toxicity_not_directed : Rat
  threshold_obscene : Rat
deriving Repr, DecidableEq

/-- Oracle for the ML scorers consulted by the pre-filter on one text:
Detoxify availability and prediction (none models a raised exception),
and for each external API its client availability together with the
result of check_toxicity, namely (is_flagged, max_score, scores). -/
structure ScorerEnv where
  detoxifyAvailable : Bool
  detoxifyPredict : Option ScoreMap
  openaiAvailable : Bool
  openaiCheck : Bool × Rat × ScoreMap
  perspectiveAvailable : Bool
  perspectiveCheck : Bool × Rat × ScoreMap
deriving Repr, DecidableEq

/-- Lookup in a score map with a default, Python scores.get(k, d). -/
def scoreGet (scores : ScoreMap) (k : String) (d : Rat) : Rat :=
  match scores.find? (fun kv => kv.1 == k) with
  | some kv => kv.2
  | none => d

/-- SmartPreFilter._get_ml_scores of src/bot.py: gather scores from all
available detectors with their prefixes, used to give the LLM context
even for pattern-matched comments. -/
def getMlScores (env : ScorerEnv) : ScoreMap :=
  let scores : ScoreMap :=
    if env.detoxifyAvailable then
      match env.detoxifyPredict with
      | some s => s
      | none => []
    else []
  let scores :=
    if env.openaiAvailable then
      scores ++ env.openaiCheck.2.2.map (fun kv => ("openai_" ++ kv.1, kv.2))
    else scores
  if env.perspectiveAvailable then
    scores ++ env.perspectiveCheck.2.2.map (fun kv => ("perspective_" ++ kv.1, kv.2))
  else scores

/-- Per-label Detoxify threshold table of should_analyze, with the
directedness-dependent insult and toxicity thresholds and the 0.7
default for unknown labels. -/
def detoxThreshold (cfg : FilterConfig) (is_directed : Bool) (label : String) : Rat :=
  if label == "threat" then cfg.threshold_threat
  else if label == "severe_toxicity" then cfg.threshold_severe_toxicity
  else if label == "identity_attack" then cfg.threshold_identity_attack
  else if label == "insult" then
    (if is_directed then cfg.threshold_insult_directed else cfg.threshold_insult_not_directed)
  else if label == "toxicity" then
    (if is_directed then cfg.threshold_toxicity_directed else cfg.threshold_toxicity_not_directed)
  else if label == "obscene" then cfg.threshold_obscene
  else (7 : Rat) / 10

/-- Result of the Detoxify block of Layer 3 of should_analyze: the
scores kept, whether Detoxify triggered, and the reason strings. -/
def detoxifyBlock (cfg : FilterConfig) (env : ScorerEnv) (c : TextChecks) (is_top_level : Bool)
    (skip_detoxify : Bool) : ScoreMap × Bool × List String :=
  if !skip_detoxify && env.detoxifyAvailable then
    match env.detoxifyPredict with
    | none => ([], false, [])
    | some scores =>
      let is_directed :=
        if !c.stronglyDirected && !is_top_level && c.weaklyDirected then true
        else c.stronglyDirected
      let identity_attack_score := scoreGet scores "identity_attack" 0
      let (trig1, reasons1) :=
        if c.contextualTerm && (is_directed || identity_attack_score > (1 : Rat) / 4) then
          (true,
           ["contextual+" ++
             (if is_directed then "directed" else "identity_attack=" ++ fmt2 identity_attack_score)])
        else (false, [])
      let triggered_labels :=
        (scores.filter (fun kv => detoxThreshold cfg is_directed kv.1 ≤ kv.2)).map
          (fun kv => kv.1 ++ "=" ++ fmt2 kv.2)
      if triggered_labels.isEmpty then (scores, trig1, reasons1)
      else (scores, true, reasons1 ++ ["detoxify:" ++ joinWith "," triggered_labels])
  else if !skip_detoxify && !env.detoxifyAvailable then
    if c.contextualTerm && c.stronglyDirected then ([], true, ["contextual+directed(no-detoxify)"])
    else ([], false, [])
  else ([], false, [])

/-- should_call_api helper of Layer 3: mode "all" and "only" always
call, mode "confirm" calls only when Detoxify triggered or is absent. -/
def shouldCallApi (env : ScorerEnv) (detoxify_triggered : Bool) (mode : String) : Bool :=
  if mode == "all" then true
  else if mode == "confirm" then detoxify_triggered || !env.detoxifyAvailable
  else if mode == "only" then true
  else false

/-- Result of should_analyze: whether to send the comment to the LLM,
the accompanying score, the gathered score map, and the value stored
under the _trigger_reasons key (none when no trigger fired). -/
structure PreFilterOutput where
  send : Bool
  score : Rat
  scores : ScoreMap
  trigger : Option String
deriving Repr, DecidableEq

/-- SmartPreFilter.should_analyze of src/bot.py: Layer 1 must-escalate
patterns, Layer 2 benign skip, Layer 3 ML scoring with mode-dependent
external APIs, deciding whether a comment goes to the LLM. -/
def should_analyze (cfg : FilterConfig) (env : ScorerEnv) (c : TextChecks)
    (is_top_level : Bool) : PreFilterOutput :=
  match mustEscalateReason c is_top_level with
  | some r => { send := true, score := 1, scores := getMlScores env, trigger := some r }
  | none =>
    if is_benign_exclamation c then
      { send := false, score := 0, scores := [("benign", 1)], trigger := none }
    else
      let skip_detoxify :=
        (cfg.openai_moderation_mode == "only" && cfg.openai_moderation_enabled) ||
        (cfg.perspective_mode == "only" && cfg.perspective_enabled)
      let (scores0, detoxify_triggered, reasons0) := detoxifyBlock cfg env c is_top_level skip_detoxify
      let (scores1, openai_triggered, reasons1) :=
        if env.openaiAvailable && shouldCallApi env detoxify_triggered cfg.openai_moderation_mode then
          let (flagged, _, mod_scores) := env.openaiCheck
          (scores0 ++ mod_scores.map (fun kv => ("openai_" ++ kv.1, kv.2)),
           flagged,
           if flagged then reasons0 ++ ["openai:flagged"] else reasons0)
        else (scores0, false, reasons0)
      let (scores2, perspective_triggered, reasons2) :=
        if env.perspectiveAvailable && shouldCallApi env detoxify_triggered cfg.perspective_mode then
          let (flagged, _, persp_scores) := env.perspectiveCheck
          (scores1 ++ persp_scores.map (fun kv => ("perspective_" ++ kv.1, kv.2)),
           flagged,
           if flagged then reasons1 ++ ["perspective:flagged"] else reasons1)
        else (scores1, false, reasons1)
      let effective_detoxify_triggered := detoxify_triggered && cfg.detoxify_can_escalate
      if effective_detoxify_triggered || openai_triggered || perspective_triggered then
        let max_score := listMax (scores2.map (fun kv => kv.2)) ((1 : Rat) / 2)
        let triggers :=
          joinWith " + " reasons2 ++
            (if detoxify_triggered && !cfg.detoxify_can_escalate then " (detoxify ignored)" else "")
        { send := true, score := max_score, scores := scores2, trigger := some triggers }
      else
        if !scores2.isEmpty then
          { send := false, score := listMax (scores2.map (fun kv => kv.2)) 0, scores := scores2,
            trigger := none }
        else
          { send := false, score := 0, scores := scores2, trigger := none }

/-! ## LLMAnalyzer.analyze

The chat-completion calls are modelled by an oracle
`call : String → Nat → CallOutcome` giving, for each model name and
per-model attempt index, either the response text or the stringified
exception (with the optional retry-after response header).  Wall-clock
time is modelled as a constant within one analyze call. -/

/-- Outcome of one chat-completion attempt: a successful response (with
the remaining-requests rate-limit header when present) or a raised
exception whose text is errText. -/
inductive CallOutcome where
  | ok (raw : String) (remainingRequests : Option Nat)
  | err (errText : String) (retryAfterHeader : Option Rat)
deriving Repr, DecidableEq

/-- Whether a call outcome is a successful response. -/
def isOkOutcome : CallOutcome → Bool
  | .ok _ _ => true
  | .err _ _ => false

/-- Rate-limit detection of src/bot.py: the exception text contains
"429" or (lowercased) "rate_limit". -/
def isRateLimitError (txt : String) : Bool :=
  strContains txt "429" || strContains (pyLower txt) "rate_limit"

/-- Attempt to match the pattern `Limit (\d+), Used (\d+)` at the head
of the char list, returning the two numbers. -/
def limitUsedAt (cs : List Char) : Option (Nat × Nat) :=
  if ("Limit ".data).isPrefixOf cs then
    let (d1, r1) := takeDigits (cs.drop 6)
    if d1.isEmpty then none
    else if (", Used ".data).isPrefixOf r1 then
      let (d2, _) := takeDigits (r1.drop 7)
      if d2.isEmpty then none else some (digitsToNat d1, digitsToNat d2)
    else none
  else none

/-- Leftmost occurrence of the `Limit (\d+), Used (\d+)` pattern,
modelling re.search over the error text. -/
def searchLimitUsed : List Char → Option (Nat × Nat)
  | [] => none
  | c :: rest =>
    match limitUsedAt (c :: rest) with
    | some v => some v
    | none => searchLimitUsed rest

/-- Daily-quota exhaustion test of src/bot.py: the error text reports
Limit and Used values with Used at or above Limit. -/
def dailyExhausted (txt : String) : Bool :=
  match searchLimitUsed txt.data with
  | some lu => lu.1 ≤ lu.2
  | none => false

/-- Suggested wait extraction of src/bot.py: a usable (nonzero)
retry-after header wins, otherwise the error text is parsed. -/
def suggestedWait (hdr : Option Rat) (txt : String) : Option Rat :=
  match hdr with
  | some w => if w == 0 then parse_retry_time txt else some w
  | none => parse_retry_time txt

/-- Cooldown lookup, model_cooldowns.get(model, 0). -/
def cdGet (cds : List (String × Rat)) (m : String) : Rat :=
  match cds.find? (fun kv => kv.1 == m) with
  | some kv => kv.2
  | none => 0

/-- Cooldown assignment, model_cooldowns[model] = t. -/
def cdSet (cds : List (String × Rat)) (m : String) (t : Rat) : List (String × Rat) :=
  cds.filter (fun kv => kv.1 != m) ++ [(m, t)]

/-- Cooldown removal, del model_cooldowns[model]. -/
def cdErase (cds : List (String × Rat)) (m : String) : List (String × Rat) :=
  cds.filter (fun kv => kv.1 != m)

/-- Retry loop of analyze for a single model (the inner for-attempt
loop): fuel counts the remaining attempts out of maxRetries.  Returns
the response text of the first success, or none when the model is given
up on, together with the updated cooldown map. -/
def attemptLoop (call : String → Nat → CallOutcome) (model : String) (maxRetries : Nat)
    (now : Rat) : Nat → Nat → List (String × Rat) → Option String × List (String × Rat)
  | 0, _, cds => (none, cds)
  | fuel + 1, attempt, cds =>
    match call model attempt with
    | .ok raw remaining =>
      let cds2 := cdErase cds model
      let cds3 :=
        match remaining with
        | some r => if r ≤ 5 then cdSet cds2 model (now + 600) else cds2
        | none => cds2
      (some raw, cds3)
    | .err txt hdr =>
      if isRateLimitError txt then
        if dailyExhausted txt then (none, cdSet cds model (now + 3600))
        else
          match suggestedWait hdr txt with
          | some w =>
            if w ≤ 30 && attempt + 1 < maxRetries then
              attemptLoop call model maxRetries now fuel (attempt + 1) cds
            else if w > 30 then (none, cdSet cds model (now + min (max (w + 60) 120) 3600))
            else (none, cdSet cds model (now + 600))
          | none =>
            if attempt + 1 < maxRetries then
              attemptLoop call model maxRetries now fuel (attempt + 1) cds
            else (none, cdSet cds model (now + 600))
      else (none, cds)

/-- Whether a model name routes to the x.ai backend: prefix grok- or
grok/ on the lowercased name. -/
def isXaiModel (m : String) : Bool :=
  pyStartsWith (pyLower m) "grok-" || pyStartsWith (pyLower m) "grok/"

/-- models_to_try construction of analyze: the configured primary model
first, then the fallback chain with duplicates skipped. -/
def modelsToTry (primary : String) (chain : List String) : List String :=
  chain.foldl (fun acc m => if m ∈ acc then acc else acc ++ [m]) [primary]

/-- Outer model loop of analyze: models on cooldown and x.ai models
without credentials are skipped, each remaining model gets its retry
loop (3 attempts for the first model, 2 for fallbacks), and the first
successful response wins. -/
def modelLoop (call : String → Nat → CallOutcome) (now : Rat) (xai_available : Bool) :
    List String → Nat → List (String × Rat) → Option String × List (String × Rat)
  | [], _, cds => (none, cds)
  | m :: rest, idx, cds =>
    if now < cdGet cds m then modelLoop call now xai_available rest (idx + 1) cds
    else if isXaiModel m && !xai_available then modelLoop call now xai_available rest (idx + 1) cds
    else
      let maxRetries := if idx > 0 then 2 else 3
      match attemptLoop call m maxRetries now maxRetries 0 cds with
      | (some raw, cds2) => (some raw, cds2)
      | (none, cds2) => modelLoop call now xai_available rest (idx + 1) cds2

/-- Python s.split(sep, 1) restricted to the colon separator: the text
before the first colon and everything after it, or none if absent. -/
def splitOnceColon (s : String) : Option (String × String) :=
  match s.data.findIdx? (fun c => c = ':') with
  | some i => some (String.mk (s.data.take i), String.mk (s.data.drop (i + 1)))
  | none => none

/-- Response parsing of analyze: the structured two-line
VERDICT/REASON form when a VERDICT: marker is present (later matching
lines overwrite earlier ones), otherwise a scan for the literal REPORT
and BENIGN tokens anywhere in the response. -/
def parseVerdictReason (raw : String) : Verdict × String :=
  let raw_upper := pyUpper raw
  if strContains raw_upper "VERDICT:" || strContains raw_upper "VERDICT :" then
    (pySplitLines raw).foldl
      (fun vr line =>
        let ls := pyStrip line
        let lu := pyUpper ls
        if pyStartsWith lu "VERDICT" then
          match splitOnceColon ls with
          | some p =>
            (if strContains (pyUpper (pyStrip p.2)) "REPORT" then Verdict.REPORT else Verdict.BENIGN, vr.2)
          | none => vr
        else if pyStartsWith lu "REASON" then
          match splitOnceColon ls with
          | some p => (vr.1, pyStrip p.2)
          | none => vr
        else vr)
      (Verdict.BENIGN, "")
  else
    (if strContains raw_upper "REPORT" && !strContains raw_upper "BENIGN" then Verdict.REPORT
     else Verdict.BENIGN, "")

/-- Fallback safeguard of analyze: empty or placeholder reasons are
replaced by a fixed default per verdict. -/
def defaultedReason (verdict : Verdict) (reason0 : String) : String :=
  if reason0 == "" || pyUpper reason0 == "REPORT" || pyUpper reason0 == "BENIGN" ||
      pyUpper reason0 == "N/A" || pyUpper reason0 == "NONE" then
    (if verdict == Verdict.REPORT then "Flagged for moderator review" else "No issues detected")
  else reason0

/-- Model-selection slice of the LLMAnalyzer constructor arguments. -/
structure AnalyzerCfg where
  primary_model : String
  fallback_chain : List String
  xai_available : Bool
deriving Repr, DecidableEq

/-- Mutable state of an LLMAnalyzer: per-model cooldown expiry times,
the daily call counter and the date it was last reset. -/
structure LLMState where
  cooldowns : List (String × Rat)
  daily_calls : Nat
  last_reset_date : String
deriving Repr, DecidableEq

/-- LLMAnalyzer.analyze of src/bot.py: day rollover bookkeeping, the
fallback chain with per-model cooldowns and retries, and response
parsing.  Exhaustion of every model is caught inside analyze itself and
degrades to a BENIGN result whose reason notes LLM unavailability; the
function never propagates an exception.  The prompt-building arguments
(text, subreddit, context, post title, scores) do not influence the
parsed verdict beyond the oracle and are accepted for faithfulness. -/
def analyze (cfg : AnalyzerCfg) (call : String → Nat → CallOutcome) (now : Rat) (today : String)
    (st : LLMState) (text subreddit parent_context : String) (detoxify_score : Rat)
    (is_top_level : Bool) (post_title : String) (scores : ScoreMap) :
    AnalysisResult × LLMState :=
  let cds0 : List (String × Rat) := if today != st.last_reset_date then [] else st.cooldowns
  let daily0 := if today != st.last_reset_date then 0 else st.daily_calls
  let daily1 := daily0 + 1
  let models := modelsToTry cfg.primary_model cfg.fallback_chain
  match modelLoop call now cfg.xai_available models 0 cds0 with
  | (none, cds1) =>
    ({ verdict := Verdict.BENIGN
       reason := "LLM unavailable - skipped (detox=" ++ fmt2 detoxify_score ++ ")"
       confidence := "low"
       raw_response := ""
       detoxify_score := detoxify_score },
     { cooldowns := cds1, daily_calls := daily1, last_reset_date := today })
  | (some raw0, cds1) =>
    let raw := pyStrip raw0
    let vr := parseVerdictReason raw
    ({ verdict := vr.1
       reason := defaultedReason vr.1 vr.2
       confidence := "high"
       raw_response := raw
       detoxify_score := detoxify_score },
     { cooldowns := cds1, daily_calls := daily1, last_reset_date := today })

/-! ## process_thing and tracking of benign analyses -/

/-- One entry of benign_analyzed.json. -/
structure BenignRecord where
  comment_id : String
  permalink : String
  text : String
  llm_reason : String
  detoxify_score : Rat
  detoxify_scores : ScoreMap
  is_top_level : Bool
  prefilter_trigger : String
  timestamp : Int
deriving Repr, DecidableEq

/-- track_benign_analyzed of src/bot.py: drop entries older than the 48
hour window, then append the new entry unless its id is already
present. -/
def track_benign_analyzed (comments : List BenignRecord) (comment_id permalink text llm_reason : String)
    (detoxify_score : Rat) (detoxify_scores : ScoreMap) (is_top_level : Bool)
    (prefilter_trigger : String) (now : Int) : List BenignRecord :=
  let cutoff := now - 48 * 3600
  let cleaned := comments.filter (fun c => c.timestamp > cutoff)
  if cleaned.any (fun c => c.comment_id == comment_id) then cleaned
  else
    cleaned ++ [{ comment_id := comment_id
                  permalink := permalink
                  text := takeChars 500 text
                  llm_reason := llm_reason
                  detoxify_score := detoxify_score
                  detoxify_scores := detoxify_scores
                  is_top_level := is_top_level
                  prefilter_trigger := prefilter_trigger
                  timestamp := now }]

/-- First maximal entry of a score map by value, Python
max(d, key=d.get) semantics. -/
def topLabel (scores : ScoreMap) : String × Rat :=
  match scores with
  | [] => ("", 0)
  | kv :: rest => rest.foldl (fun best x => if x.2 > best.2 then x else best) kv

/-- Prefilter-trigger extraction of the benign branch of process_thing:
the first score key that is not a plain Detoxify label (the
_trigger_reasons entry, iterated last, also qualifies), else a
detoxify:label=score tag for the top label, else empty. -/
def computePrefilterTrigger (scores : ScoreMap) (trigger : Option String) : String :=
  let detoxLabels := ["toxicity", "severe_toxicity", "obscene", "threat", "insult", "identity_attack"]
  let keys := scores.map (fun kv => kv.1) ++
    (match trigger with | some _ => ["_trigger_reasons"] | none => [])
  match keys.find? (fun k => !detoxLabels.contains k) with
  | some k => k
  | none =>
    if scores.isEmpty then ""
    else
      let top := topLabel scores
      "detoxify:" ++ top.1 ++ "=" ++ fmt2 top.2

/-- A Reddit thing as seen by process_thing: its fullname, the text
extracted by get_text_from_thing (none means no usable text), permalink
and surrounding context, and the raw parent_id (none when the attribute
is absent). -/
structure Item where
  fullname : String
  textOf : Option String
  permalink : String
  parent_id : Option String
  parent_context : String
  post_title : String
deriving Repr, DecidableEq

/-- Externally visible side effects performed while processing one
thing, in order: the pre-filter scoring pass, the LLM consultation, the
filed report and the auto-removal. -/
inductive Effect where
  | prefilterRun (text : String)
  | sentToLLM (text : String)
  | reportFiled (id : String) (reason : String)
  | autoRemoved (id : String)
deriving Repr, DecidableEq

/-- Persisted stores touched by process_thing. -/
structure BotState where
  tracked : List TrackedRecord
  benign : List BenignRecord
deriving Repr, DecidableEq

/-- Behavior slice of the Config dataclass used by process_thing. -/
structure BotConfig where
  filter : FilterConfig
  autoRemove : AutoRemoveCfg
  threshold_borderline : Rat
  enable_reddit_reports : Bool
  dry_run : Bool
deriving Repr, DecidableEq

/-- Result of processing one thing: updated stores, updated analyzer
state and the list of performed effects. -/
structure ProcessOutput where
  state : BotState
  llm : LLMState
  effects : List Effect
deriving Repr, DecidableEq

/-- process_thing of src/bot.py: pre-filter the text, consult the LLM
when escalated, track benign analyses, and on a REPORT verdict file a
report, optionally auto-remove, and record the reported comment.
reportSucceeds models whether file_report raises (its exception handler
skips removal and tracking).  No deduplication against previously seen
or tracked ids happens anywhere in this function: every invocation
re-runs the pre-filter scoring pass. -/
def process_thing (cfg : BotConfig) (acfg : AnalyzerCfg) (call : String → Nat → CallOutcome)
    (checks : TextChecks) (env : ScorerEnv) (reportSucceeds : Bool)
    (now : Rat) (nowInt : Int) (today : String)
    (item : Item) (st : BotState) (lst : LLMState) : ProcessOutput :=
  match item.textOf with
  | none => ⟨st, lst, []⟩
  | some text =>
    let thing_id := item.fullname
    let is_top_level :=
      match item.parent_id with
      | some p => pyStartsWith p "t3_"
      | none => false
    let pf := should_analyze cfg.filter env checks is_top_level
    let eff0 := [Effect.prefilterRun text]
    if !pf.send then ⟨st, lst, eff0⟩
    else
      let ar := analyze acfg call now today lst text "" item.parent_context pf.score is_top_level
        item.post_title pf.scores
      let result := ar.1
      let lst2 := ar.2
      let eff1 := eff0 ++ [Effect.sentToLLM text]
      let should_report := result.verdict == Verdict.REPORT
      let st1 :=
        if !should_report then
          { st with benign := (track_benign_analyzed st.benign thing_id item.permalink text
              result.reason pf.score pf.scores is_top_level
              (computePrefilterTrigger pf.scores pf.trigger) nowInt) }
        else st
      if cfg.enable_reddit_reports && should_report then
        let reason := build_report_reason result
        let is_pattern_match :=
          match pf.trigger with
          | some t => strContains t "must_escalate"
          | none => false
        let sar := check_auto_remove_consensus pf.scores cfg.autoRemove is_pattern_match
        if cfg.dry_run then ⟨st1, lst2, eff1⟩
        else if !reportSucceeds then ⟨st1, lst2, eff1⟩
        else
          let eff2 := eff1 ++ [Effect.reportFiled thing_id reason] ++
            (if sar.1 then [Effect.autoRemoved thing_id] else [])
          let st2 := { st1 with
            tracked := (track_reported_comment st1.tracked thing_id item.permalink text
              result.reason pf.score is_top_level nowInt) }
          ⟨st2, lst2, eff2⟩
      else ⟨st1, lst2, eff1⟩

/-! ## modlog_refresh.py -/

/-- One line of the report_outcomes.jsonl file. -/
structure OutcomeRecord where
  target_fullname : String
  status : String
  raw_action : String
  created_utc : Rat
  subreddit : String
  mod : String
deriving Repr, DecidableEq

/-- APPROVE_ACTIONS of src/modlog_refresh.py. -/
def APPROVE_ACTIONS : List String := ["approvecomment", "approvelink"]

/-- REMOVE_ACTIONS of src/modlog_refresh.py. -/
def REMOVE_ACTIONS : List String :=
  ["removecomment", "removelink", "spamcomment", "spamlink", "moderator_remove", "remove"]

/-- _classify_status of src/modlog_refresh.py. -/
def classifyStatus (action : String) : Option String :=
  let a := pyLower action
  if APPROVE_ACTIONS.contains a then some "approved"
  else if REMOVE_ACTIONS.contains a then some "removed"
  else none

/-- _normalize_fullname of src/modlog_refresh.py: only t1_/t3_ prefixed
fullnames are usable. -/
def normalizeFullname : Option String → Option String
  | none => none
  | some fullname =>
    if fullname = "" then none
    else
      let f := pyStrip fullname
      if pyStartsWith f "t1_" || pyStartsWith f "t3_" then some f else none

/-- Composite dedup key of _save_outcome:
target_fullname|status|int(created_utc). -/
def outcomeKey (fname status : String) (created : Rat) : String :=
  fname ++ "|" ++ status ++ "|" ++ toString (pyTrunc created)

/-- Qualification test of _read_seen_keys: a line contributes a key
only with a nonempty fullname, a resolved status, and a nonzero
truncated timestamp. -/
def seenQualifies (d : OutcomeRecord) : Bool :=
  d.target_fullname != "" && (d.status == "approved" || d.status == "removed") &&
    pyTrunc d.created_utc != 0

/-- _read_seen_keys of src/modlog_refresh.py: the dedup keys of all
qualifying lines already in the outcomes file. -/
def readSeenKeys (file : List OutcomeRecord) : List String :=
  (file.filter seenQualifies).map (fun d => outcomeKey d.target_fullname d.status d.created_utc)

/-- _save_outcome of src/modlog_refresh.py: append the record and its
key unless the key is already known; the Bool reports whether a line
was written. -/
def saveOutcome (file : List OutcomeRecord) (seen : List String) (record : OutcomeRecord) :
    List OutcomeRecord × List String × Bool :=
  let key := outcomeKey record.target_fullname record.status record.created_utc
  if key ∈ seen then (file, seen, false)
  else (file ++ [record], seen ++ [key], true)

/-- One moderation-log action as yielded by the Reddit API. -/
structure ModAction where
  action : String
  target_fullname : Option String
  created_utc : Rat
  subreddit : String
  mod : String
deriving Repr, DecidableEq

/-- Outcome record built by refresh_modlog from one action. -/
def actionRecord (a : ModAction) (status fname : String) : OutcomeRecord :=
  { target_fullname := fname
    status := status
    raw_action := a.action
    created_utc := a.created_utc
    subreddit := a.subreddit
    mod := a.mod }

/-- Accumulated state of a refresh_modlog run. -/
structure RefreshState where
  file : List OutcomeRecord
  seen : List String
  written : Nat
  scanned : Nat
deriving Repr, DecidableEq

/-- Per-subreddit scan loop of refresh_modlog: stop at the per-call
limit or at the first action older than the cutoff, classify and
normalize every other action, and save the resulting records
deduplicated against the seen keys. -/
def modlogLoop (cutoff : Rat) (limit : Nat) : List ModAction → Nat → RefreshState → RefreshState
  | [], _, s => s
  | a :: rest, fetched, s =>
    if limit ≤ fetched then s
    else
      let s1 := { s with scanned := s.scanned + 1 }
      if a.created_utc < cutoff then s1
      else
        match classifyStatus a.action with
        | none => modlogLoop cutoff limit rest (fetched + 1) s1
        | some status =>
          match normalizeFullname a.target_fullname with
          | none => modlogLoop cutoff limit rest (fetched + 1) s1
          | some fname =>
            match saveOutcome s1.file s1.seen (actionRecord a status fname) with
            | (f2, s2, wrote) =>
              modlogLoop cutoff limit rest (fetched + 1)
                { file := f2
                  seen := s2
                  written := if wrote then s1.written + 1 else s1.written
                  scanned := s1.scanned }

/-- refresh_modlog of src/modlog_refresh.py: read the seen keys once,
scan each subreddit moderation log in turn, and return the grown
outcomes file with the written and scanned counts. -/
def refresh_modlog (file : List OutcomeRecord) (subActions : List (List ModAction))
    (cutoff : Rat) (limit : Nat) : List OutcomeRecord × Nat × Nat :=
  let init : RefreshState := ⟨file, readSeenKeys file, 0, 0⟩
  let fin := subActions.foldl (fun s acts => modlogLoop cutoff limit acts 0 s) init
  (fin.file, fin.written, fin.scanned)

/-- Dedup key of an outcome record. -/
def recordKey (r : OutcomeRecord) : String :=
  outcomeKey r.target_fullname r.status r.created_utc

/-- Records that a modlog scan attempts to save: a function of the
action list and loop position alone, since the loop control of
modlogLoop never depends on the file or the seen keys. -/
def attemptedRecords (cutoff : Rat) (limit : Nat) : List ModAction → Nat → List OutcomeRecord
  | [], _ => []
  | a :: rest, fetched =>
    if limit ≤ fetched then []
    else if a.created_utc < cutoff then []
    else
      match classifyStatus a.action with
      | none => attemptedRecords cutoff limit rest (fetched + 1)
      | some status =>
        match normalizeFullname a.target_fullname with
        | none => attemptedRecords cutoff limit rest (fetched + 1)
        | some fname => actionRecord a status fname :: attemptedRecords cutoff limit rest (fetched + 1)

/-! ## Concrete instances used by witnesses and counterexamples -/

/-- Filter configuration with the default thresholds of load_config. -/
def defaultFilterConfig : FilterConfig :=
  { detoxify_can_escalate := true
    openai_moderation_enabled := false
    openai_moderation_mode := "confirm"
    perspective_enabled := false
    perspective_mode := "confirm"
    threshold_threat := 15 / 100
    threshold_severe_toxicity := 20 / 100
    threshold_identity_attack := 25 / 100
    threshold_insult_directed := 40 / 100
    threshold_insult_not_directed := 60 / 100
    threshold_toxicity_directed := 40 / 100
    threshold_toxicity_not_directed := 50 / 100
    threshold_obscene := 90 / 100 }

/-- Scorer environment with no ML scorer available. -/
def noScorerEnv : ScorerEnv :=
  { detoxifyAvailable := false
    detoxifyPredict := none
    openaiAvailable := false
    openaiCheck := (false, 0, [])
    perspectiveAvailable := false
    perspectiveCheck := (false, 0, []) }

/-- Text checks where only the threat rule fires. -/
def threatOnlyChecks : TextChecks :=
  { regexMustEscalate := false
    slur := false
    selfHarm := false
    threat := true
    sexualViolence := false
    brigading := false
    violenceIllegal := false
    shillAccusation := false
    dismissive := none
    directInsult := false
    stronglyDirected := false
    weaklyDirected := false
    contextualTerm := false
    benignMatch := false }

/-- Bot configuration used by the C2 scenario: reports enabled, no dry
run, auto-remove disabled. -/
def c2Config : BotConfig :=
  { filter := defaultFilterConfig
    autoRemove :=
      { auto_remove_enabled := false
        auto_remove_require_models := ["openai", "perspective"]
        auto_remove_min_consensus := 2
        auto_remove_detoxify_min := 70 / 100
        auto_remove_openai_min := 70 / 100
        auto_remove_perspective_min := 70 / 100
        auto_remove_on_pattern_match := false }
    threshold_borderline := 35 / 100
    enable_reddit_reports := true
    dry_run := false }

/-- Analyzer configuration used by the C2 scenario. -/
def c2AnalyzerCfg : AnalyzerCfg :=
  { primary_model := "groq/compound", fallback_chain := [], xai_available := false }

/-- Call oracle of the C2 scenario: the model always answers with a
structured REPORT verdict. -/
def c2Call : String → Nat → CallOutcome :=
  fun _ _ => CallOutcome.ok "VERDICT: REPORT\nREASON: directed insult" none

/-- The already-tracked record of the C2 scenario. -/
def c2TrackedRec : TrackedRecord :=
  { comment_id := "t1_abc"
    permalink := "https://reddit.com/r/x/comments/1/_/abc/"
    text := "i will hurt you"
    groq_reason := "threatening"
    detoxify_score := 1
    is_top_level := false
    reported_at := some 0
    outcome := "pending"
    checked_at := none }

/-- The item of the C2 scenario, whose id is already tracked. -/
def c2Item : Item :=
  { fullname := "t1_abc"
    textOf := some "i will hurt you"
    permalink := "https://reddit.com/r/x/comments/1/_/abc/"
    parent_id := some "t1_parent"
    parent_context := ""
    post_title := "" }

/-- The persisted state of the C2 scenario. -/
def c2State : BotState := { tracked := [c2TrackedRec], benign := [] }

/-- The analyzer state of the C2 scenario. -/
def c2LLMState : LLMState := { cooldowns := [], daily_calls := 0, last_reset_date := "2026-02-03" }

/-- Full reprocessing run of the C2 scenario. -/
def c2Run : ProcessOutput :=
  process_thing c2Config c2AnalyzerCfg c2Call threatOnlyChecks noScorerEnv true
    0 100 "2026-02-03" c2Item c2State c2LLMState

/-- Moderation-log action used by the C9 witness. -/
def c9Action : ModAction :=
  { action := "removecomment"
    target_fullname := some "t1_abc"
    created_utc := 5
    subreddit := "x"
    mod := "modname" }

/-- Resolved tracked record used by the C7 witness. -/
def c7ResolvedRec : TrackedRecord :=
  { comment_id := "t1_res"
    permalink := "p"
    text := "t"
    groq_reason := "r"
    detoxify_score := 0
    is_top_level := false
    reported_at := some 0
    outcome := "removed"
    checked_at := some 500 }

/-- Pending tracked record used by the C8 witness. -/
def c8PendingRec : TrackedRecord :=
  { comment_id := "t1_pen"
    permalink := "p"
    text := "t"
    groq_reason := "r"
    detoxify_score := 0
    is_top_level := true
    reported_at := some 0
    outcome := "pending"
    checked_at := none }

/-- Long reason used by the C10 witness: 7 characters. -/
def c10ShortResult : AnalysisResult :=
  { verdict := Verdict.REPORT
    reason := "Insults"
    confidence := "high"
    raw_response := ""
    detoxify_score := 0 }

/-- Text checks of the C3 witness: a must-escalate regex pattern and
the benign-exclamation rule both match, nothing is directed. -/
def c3Checks : TextChecks :=
  { threatOnlyChecks with regexMustEscalate := true, threat := false, benignMatch := true }

/-- Text checks of the C4 witness: a direct-insult phrase with no
directedness signal and no other rule firing. -/
def c4Checks : TextChecks :=
  { threatOnlyChecks with threat := false, directInsult := true }

/-- Auto-remove configuration of the C5 counterexample: enabled, empty
required-scorer list, quorum zero. -/
def c5CexCfg : AutoRemoveCfg :=
  { auto_remove_enabled := true
    auto_remove_require_models := []
    auto_remove_min_consensus := 0
    auto_remove_detoxify_min := 1
    auto_remove_openai_min := 1
    auto_remove_perspective_min := 1
    auto_remove_on_pattern_match := false }

/-- Auto-remove configuration of the C5 witness: quorum 2 over the
three scorers, each with minimum 1. -/
def c5PassCfg : AutoRemoveCfg :=
  { auto_remove_enabled := true
    auto_remove_require_models := ["openai", "detoxify", "perspective"]
    auto_remove_min_consensus := 2
    auto_remove_detoxify_min := 1
    auto_remove_openai_min := 1
    auto_remove_perspective_min := 1
    auto_remove_on_pattern_match := false }

/-- Scores of the C5 witness where openai (A) and perspective (C) pass
while detoxify (B) fails. -/
def c5Scores : ScoreMap := [("toxicity", 0), ("openai_harassment", 1), ("perspective_TOXICITY", 1)]

/-- Scores of the C5 witness where only openai (A) passes. -/
def c5ScoresA : ScoreMap := [("toxicity", 0), ("openai_harassment", 1), ("perspective_TOXICITY", 0)]

/-- Call oracle of the C1 witness: every attempt raises a rate-limit
error. -/
def c1FailCall : String → Nat → CallOutcome :=
  fun _ _ => CallOutcome.err "Error code: 429 - rate_limit exceeded" none

/-! ## Theorems -/

theorem strLength_mk (l : List Char) : (String.mk l).length = l.length := rfl

theorem strMk_append (a b : List Char) : String.mk a ++ String.mk b = String.mk (a ++ b) := rfl

theorem strLength_data (s : String) : s.length = s.data.length := rfl

/-- C10: build_report_reason returns at most 100 characters for every
AnalysisResult; a reason of at most 100 characters is returned
unchanged; a longer reason is replaced by a prefix of itself of at most
97 characters, suffixed with three dots, and the cut lands exactly on
the last space of the first 97 characters whenever that space sits past
position 50. -/
theorem c10_build_report_reason_truncates (result : AnalysisResult) :
    (build_report_reason result).length ≤ 100
    ∧ (result.reason.length ≤ 100 → build_report_reason result = result.reason)
    ∧ (100 < result.reason.length →
        ∃ k, k ≤ 97 ∧ build_report_reason result = String.mk (result.reason.data.take k) ++ "...")
    ∧ (100 < result.reason.length → 50 < rfindSpace (result.reason.data.take 97) →
        build_report_reason result
          = String.mk ((result.reason.data.take 97).take
              (rfindSpace (result.reason.data.take 97)).toNat) ++ "...") := by
  unfold build_report_reason
  by_cases h : result.reason.length ≤ 100
  · refine ⟨by simp [h], fun _ => by simp [h], fun hlong => absurd h (by omega), fun hlong => absurd h (by omega)⟩
  · have hlong : 100 < result.reason.length := by omega
    simp only [if_neg h]
    have hdata : result.reason.length = result.reason.data.length := rfl
    refine ⟨?_, fun hshort => absurd hshort h, fun _ => ?_, fun _ hspace => ?_⟩
    · have h97 : (result.reason.data.take 97).length ≤ 97 := List.length_take_le _ _
      by_cases hs : rfindSpace (result.reason.data.take 97) > 50
      · have : ((result.reason.data.take 97).take
            (rfindSpace (result.reason.data.take 97)).toNat).length ≤ 97 := by
          rw [List.length_take]
          exact le_trans (min_le_right _ _) h97
        simp only [if_pos hs]
        show (String.mk _ ++ "...").length ≤ 100
        rw [show ("..." : String) = String.mk ['.', '.', '.'] from rfl, strMk_append,
          strLength_mk, List.length_append]
        simpa using this
      · simp only [if_neg hs]
        show (String.mk _ ++ "...").length ≤ 100
        rw [show ("..." : String) = String.mk ['.', '.', '.'] from rfl, strMk_append,
          strLength_mk, List.length_append]
        simpa using h97
    · by_cases hs : rfindSpace (result.reason.data.take 97) > 50
      · refine ⟨min (rfindSpace (result.reason.data.take 97)).toNat 97, min_le_right _ _, ?_⟩
        simp only [if_pos hs, List.take_take]
      · exact ⟨97, le_refl 97, by simp only [if_neg hs]⟩
    · simp only [if_pos hspace]

/-- C10 witness: a short reason is passed through unchanged. -/
theorem c10_witness : build_report_reason c10ShortResult = "Insults" :=
  (c10_build_report_reason_truncates c10ShortResult).2.1 (by decide)

theorem cleanupKeeps_eq_not_due (now : Int) (d : Nat) (e : TrackedRecord) :
    cleanupKeeps now d e = !dueForRemoval now d e := by
  unfold cleanupKeeps dueForRemoval
  cases h : (e.outcome == "pending") with
  | true => simp [h, bne]
  | false =>
    cases hc : e.checked_at with
    | none => simp [h, hc, bne]
    | some t =>
      simp only [h, hc, bne, Bool.not_false, Bool.true_and, Bool.false_eq_true, if_false]
      rw [← decide_not]
      exact decide_eq_decide.mpr (Iff.symm not_le)

/-- C8: cleanup_old_tracked keeps the store order and content except
for dropping exactly the resolved entries whose checked_at timestamp is
at least max_age_days old; a pending entry is never removed, whatever
its age. -/
theorem c8_cleanup_old_tracked_exact (comments : List TrackedRecord) (now : Int) (max_age_days : Nat) :
    (cleanup_old_tracked comments now max_age_days).1
      = comments.filter (fun e => !dueForRemoval now max_age_days e)
    ∧ (∀ e : TrackedRecord, e.outcome = "pending" → dueForRemoval now max_age_days e = false)
    ∧ (∀ e ∈ comments, e.outcome = "pending" →
        e ∈ (cleanup_old_tracked comments now max_age_days).1) := by
  have hpend : ∀ e : TrackedRecord, e.outcome = "pending" → dueForRemoval now max_age_days e = false := by
    intro e he
    unfold dueForRemoval
    simp [he]
  refine ⟨?_, hpend, ?_⟩
  · unfold cleanup_old_tracked
    simp only
    exact List.filter_congr fun e _ => cleanupKeeps_eq_not_due now max_age_days e
  · intro e he hep
    unfold cleanup_old_tracked
    simp only
    refine List.mem_filter.mpr ⟨he, ?_⟩
    rw [cleanupKeeps_eq_not_due, hpend e hep]
    rfl

/-- C8 witness: a pending record survives cleanup at any age. -/
theorem c8_witness :
    dueForRemoval 99999999 30 c8PendingRec = false
    ∧ c8PendingRec ∈ (cleanup_old_tracked [c8PendingRec] 99999999 30).1 :=
  ⟨(c8_cleanup_old_tracked_exact [c8PendingRec] 99999999 30).2.1 c8PendingRec rfl,
   (c8_cleanup_old_tracked_exact [c8PendingRec] 99999999 30).2.2 c8PendingRec
     (List.mem_cons_self c8PendingRec []) rfl⟩

/-- C6: parse_retry_time sums composite duration strings that start the
text (2m5s gives 125 seconds, 24h0m0s gives 86400), but the documented
prefixed form "try again in 30s" yields none rather than 30: every
group of the underlying regex is optional, so re.search matches the
empty string at position 0 and durations later in the text are never
reached.  This contradicts the function docstring, which lists
"try again in 30s" among its handled examples. -/
theorem c6_parse_retry_time_eval :
    parse_retry_time "2m5s" = some 125
    ∧ parse_retry_time "24h0m0s" = some 86400
    ∧ parse_retry_time "try again in 30s" = none := by
  refine ⟨?_, ?_, ?_⟩
  · have h : parse_retry_time "2m5s"
        = (if (0 + ((2 : Nat) : Rat) * 60 + ((5 : Nat) : Rat) + 0 : Rat) > 0
           then some (0 + ((2 : Nat) : Rat) * 60 + ((5 : Nat) : Rat) + 0) else none) := rfl
    rw [h, if_pos (by norm_num)]
    norm_num
  · have h : parse_retry_time "24h0m0s"
        = (if (((24 : Nat) : Rat) * 3600 + ((0 : Nat) : Rat) * 60 + ((0 : Nat) : Rat) + 0 : Rat) > 0
           then some (((24 : Nat) : Rat) * 3600 + ((0 : Nat) : Rat) * 60 + ((0 : Nat) : Rat) + 0)
           else none) := rfl
    rw [h, if_pos (by norm_num)]
    norm_num
  · have h : parse_retry_time "try again in 30s"
        = (if ((0 : Rat) + 0 + 0 + 0 : Rat) > 0 then some ((0 : Rat) + 0 + 0 + 0) else none) := rfl
    rw [h, if_neg (by norm_num)]

theorem map_id_of_mem_eq {α : Type} (l : List α) (f : α → α) (h : ∀ x ∈ l, f x = x) :
    l.map f = l := by
  induction l with
  | nil => rfl
  | cons a t ih =>
    simp only [List.map_cons, h a (by simp)]
    rw [ih fun x hx => h x (by simp [hx])]

theorem reconcileEntry_resolved_eq (fetch : String → FetchResult) (now : Int) (mah : Nat)
    (e : TrackedRecord) (h : e.outcome ≠ "pending") :
    reconcileEntry fetch now mah e = e := by
  unfold reconcileEntry
  simp [bne, h]

theorem fpTriggered_resolved_false (fetch : String → FetchResult) (now : Int)
    (e : TrackedRecord) (h : e.outcome ≠ "pending") :
    fpTriggered fetch now e = false := by
  unfold fpTriggered
  simp [h]

theorem fp_foldl_const (fetch : String → FetchResult) (now : Int) (comments : List TrackedRecord)
    (h : ∀ e ∈ comments, fpTriggered fetch now e = false) :
    ∀ fps : List FalsePositiveRecord,
      comments.foldl
        (fun acc e => if fpTriggered fetch now e then track_false_positive acc e now else acc) fps
        = fps := by
  induction comments with
  | nil => intro fps; rfl
  | cons a t ih =>
    intro fps
    rw [List.foldl_cons, if_neg (by simp [h a (by simp)])]
    exact ih (fun e he => h e (by simp [he])) fps

/-- C7: outcome resolution is monotonic — both reconcilers
(check_reported_outcomes and check_and_track_false_positives) leave any
record whose outcome is already removed or approved entirely unchanged,
outcome and checked_at included, and re-running either reconciliation
over a store whose records are all resolved is a no-op on the store and
adds no false positive. -/
theorem c7_outcome_monotonic (fetch : String → FetchResult) (now : Int) (min_age_hours : Nat)
    (comments : List TrackedRecord) (fps : List FalsePositiveRecord) :
    (∀ e : TrackedRecord, e.outcome ≠ "pending" → reconcileEntry fetch now min_age_hours e = e)
    ∧ ((∀ e ∈ comments, e.outcome ≠ "pending") →
        (check_reported_outcomes fetch now min_age_hours comments).1 = comments
        ∧ (check_and_track_false_positives fetch now comments fps).1 = comments
        ∧ (check_and_track_false_positives fetch now comments fps).2.1 = fps) := by
  refine ⟨fun e he => reconcileEntry_resolved_eq fetch now min_age_hours e he, fun hall => ⟨?_, ?_, ?_⟩⟩
  · exact map_id_of_mem_eq comments _
      (fun e he => reconcileEntry_resolved_eq fetch now min_age_hours e (hall e he))
  · exact map_id_of_mem_eq comments _
      (fun e he => reconcileEntry_resolved_eq fetch now 24 e (hall e he))
  · exact fp_foldl_const fetch now comments
      (fun e he => fpTriggered_resolved_false fetch now e (hall e he)) fps

/-- C7 witness: a resolved record is untouched by reconciliation. -/
theorem c7_witness :
    reconcileEntry (fun _ => FetchResult.notFound) 1000 24 c7ResolvedRec = c7ResolvedRec
    ∧ (check_reported_outcomes (fun _ => FetchResult.notFound) 1000 24 [c7ResolvedRec]).1
        = [c7ResolvedRec] :=
  ⟨(c7_outcome_monotonic (fun _ => FetchResult.notFound) 1000 24 [c7ResolvedRec] []).1
      c7ResolvedRec (by decide),
   ((c7_outcome_monotonic (fun _ => FetchResult.notFound) 1000 24 [c7ResolvedRec] []).2
      (by decide)).1⟩

/-- C3: whenever a must-escalate pattern rule fires, should_analyze
returns the MUST_ESCALATE outcome — send to the arbiter with score 1.0
and the firing rule recorded as trigger — even when the text also
matches the benign-exclamation check; the benign short-circuit is only
reachable when no escalation rule fired. -/
theorem c3_must_escalate_beats_benign (cfg : FilterConfig) (env : ScorerEnv) (c : TextChecks)
    (is_top_level : Bool) (r : String)
    (hrule : mustEscalateReason c is_top_level = some r)
    (hbenign : c.benignMatch = true) :
    should_analyze cfg env c is_top_level
      = { send := true, score := 1, scores := getMlScores env, trigger := some r } := by
  unfold should_analyze
  rw [hrule]

/-- C3 witness: a text matching both a must-escalate regex and the
benign-exclamation rule is sent to the arbiter with score 1.0. -/
theorem c3_witness :
    should_analyze defaultFilterConfig noScorerEnv c3Checks true
      = { send := true, score := 1, scores := getMlScores noScorerEnv,
          trigger := some "must_escalate:regex_pattern" } :=
  c3_must_escalate_beats_benign defaultFilterConfig noScorerEnv c3Checks true
    "must_escalate:regex_pattern" rfl rfl

/-- C4: a direct-insult phrase with no directedness signal and no other
escalation rule firing does not escalate in a top-level comment (no
must-escalate rule fires at all), while the same text in a reply
escalates through the insult rule and is sent to the arbiter with score
1.0. -/
theorem c4_insult_reply_gating (cfg : FilterConfig) (env : ScorerEnv) (c : TextChecks)
    (hinsult : c.directInsult = true) (hdir : c.stronglyDirected = false)
    (h1 : c.regexMustEscalate = false) (h2 : c.slur = false) (h3 : c.selfHarm = false)
    (h4 : c.threat = false) (h5 : c.sexualViolence = false) (h6 : c.brigading = false)
    (h7 : c.violenceIllegal = false) (h8 : c.dismissive = none) :
    mustEscalateReason c true = none
    ∧ mustEscalateReason c false = some "must_escalate:insult+reply"
    ∧ (should_analyze cfg env c false).send = true
    ∧ (should_analyze cfg env c false).score = 1 := by
  have hreply : mustEscalateReason c false = some "must_escalate:insult+reply" := by
    unfold mustEscalateReason insultEscalation
    simp [h1, h2, h3, h4, h5, h6, h7, h8, hdir, hinsult]
  refine ⟨?_, hreply, ?_, ?_⟩
  · unfold mustEscalateReason insultEscalation
    simp [h1, h2, h3, h4, h5, h6, h7, h8, hdir, hinsult]
  · simp [should_analyze, hreply]
  · simp [should_analyze, hreply]

/-- C4 witness: the gating at a concrete check valuation. -/
theorem c4_witness :
    mustEscalateReason c4Checks true = none
    ∧ mustEscalateReason c4Checks false = some "must_escalate:insult+reply" :=
  ⟨(c4_insult_reply_gating defaultFilterConfig noScorerEnv c4Checks
      rfl rfl rfl rfl rfl rfl rfl rfl rfl rfl).1,
   (c4_insult_reply_gating defaultFilterConfig noScorerEnv c4Checks
      rfl rfl rfl rfl rfl rfl rfl rfl rfl rfl).2.1⟩

/-- C5 counterexample: the claimed equivalence fails as stated.  With
auto-remove enabled, an empty required-scorer list and quorum 0, at
least 0 of the configured required scorers pass vacuously, yet
check_auto_remove_consensus returns false (it never removes with an
empty scorer list). -/
theorem c5_counterexample : ¬ c5ClaimStatement := by
  intro h
  have h2 := (h [] c5CexCfg rfl).2 (Nat.zero_le _)
  have h3 : (check_auto_remove_consensus [] c5CexCfg false).1 = false := rfl
  rw [h3] at h2
  exact Bool.noConfusion h2

theorem consensusStep_fst_length (scores : ScoreMap) (cfg : AutoRemoveCfg)
    (acc : List String × List String) (m : String) :
    ((consensusStep scores cfg acc m).1).length
      = acc.1.length + (if modelPasses scores cfg m then 1 else 0) := by
  unfold consensusStep modelPasses
  dsimp only
  split_ifs <;> simp_all <;> linarith

theorem consensus_foldl_length (scores : ScoreMap) (cfg : AutoRemoveCfg) :
    ∀ (models : List String) (acc : List String × List String),
      ((models.foldl (consensusStep scores cfg) acc).1).length
        = acc.1.length + (models.filter (modelPasses scores cfg)).length := by
  intro models
  induction models with
  | nil => intro acc; simp
  | cons m t ih =>
    intro acc
    rw [List.foldl_cons, ih, consensusStep_fst_length, List.filter_cons]
    by_cases h : modelPasses scores cfg m = true
    · simp [h]
      omega
    · simp [h]

/-- C5 (amended): with auto-remove enabled, the item not a pattern
match and a nonempty configured required-scorer list,
check_auto_remove_consensus removes if and only if at least
auto_remove_min_consensus entries of that list pass, where an entry
passes exactly when it names one of detoxify, openai or perspective and
that scorer's maximum score over its own prefix partition of the score
map meets or exceeds that scorer's configured auto-remove minimum;
below quorum it returns false.  (With an empty configured list it
always returns false, which is what the counterexample exhibits.) -/
theorem c5_amended_consensus_iff (scores : ScoreMap) (cfg : AutoRemoveCfg)
    (hen : cfg.auto_remove_enabled = true)
    (hne : cfg.auto_remove_require_models ≠ []) :
    (check_auto_remove_consensus scores cfg false).1 = true ↔
      cfg.auto_remove_min_consensus ≤ passCount scores cfg := by
  have hempty : cfg.auto_remove_require_models.isEmpty = false := by
    cases hl : cfg.auto_remove_require_models with
    | nil => exact absurd hl hne
    | cons a t => rfl
  have hlen : ((cfg.auto_remove_require_models.foldl (consensusStep scores cfg) ([], [])).1).length
      = passCount scores cfg := by
    rw [consensus_foldl_length]
    simp [passCount]
  unfold check_auto_remove_consensus
  rw [hen, hempty]
  by_cases hq : cfg.auto_remove_min_consensus ≤ passCount scores cfg
  · simp [hlen, hq]
  · simp [hlen, hq]

/-- C5 witness: with quorum 2, scorers A (openai) and C (perspective)
passing while B (detoxify) fails fires auto-removal; with only A
passing it does not. -/
theorem c5_witness :
    (check_auto_remove_consensus c5Scores c5PassCfg false).1 = true
    ∧ (check_auto_remove_consensus c5ScoresA c5PassCfg false).1 = false := by
  constructor
  · exact (c5_amended_consensus_iff c5Scores c5PassCfg rfl (by decide)).mpr (by decide)
  · have hiff := c5_amended_consensus_iff c5ScoresA c5PassCfg rfl (by decide)
    have hnp : ¬ (c5PassCfg.auto_remove_min_consensus ≤ passCount c5ScoresA c5PassCfg) := by decide
    cases hv : (check_auto_remove_consensus c5ScoresA c5PassCfg false).1 with
    | false => rfl
    | true => exact absurd (hiff.mp hv) hnp

theorem saveOutcome_of_mem (file : List OutcomeRecord) (seen : List String) (record : OutcomeRecord)
    (h : recordKey record ∈ seen) : saveOutcome file seen record = (file, seen, false) := by
  unfold saveOutcome recordKey at *
  rw [if_pos h]

theorem saveOutcome_of_not_mem (file : List OutcomeRecord) (seen : List String) (record : OutcomeRecord)
    (h : recordKey record ∉ seen) :
    saveOutcome file seen record = (file ++ [record], seen ++ [recordKey record], true) := by
  unfold saveOutcome recordKey at *
  rw [if_neg h]

theorem saveOutcome_key_mem (file : List OutcomeRecord) (seen : List String) (record : OutcomeRecord) :
    recordKey record ∈ (saveOutcome file seen record).2.1 := by
  by_cases h : recordKey record ∈ seen
  · rw [saveOutcome_of_mem file seen record h]; exact h
  · rw [saveOutcome_of_not_mem file seen record h]
    exact List.mem_append_right _ (List.mem_cons_self _ _)

theorem saveOutcome_seen_mono (file : List OutcomeRecord) (seen : List String) (record : OutcomeRecord)
    (k : String) (h : k ∈ seen) : k ∈ (saveOutcome file seen record).2.1 := by
  by_cases hm : recordKey record ∈ seen
  · rw [saveOutcome_of_mem file seen record hm]; exact h
  · rw [saveOutcome_of_not_mem file seen record hm]
    exact List.mem_append_left _ h

theorem modlogLoop_seen_mono (cutoff : Rat) (limit : Nat) :
    ∀ (acts : List ModAction) (fetched : Nat) (s : RefreshState) (k : String),
      k ∈ s.seen → k ∈ (modlogLoop cutoff limit acts fetched s).seen := by
  intro acts
  induction acts with
  | nil => intro fetched s k hk; exact hk
  | cons a rest ih =>
    intro fetched s k hk
    simp only [modlogLoop]
    by_cases h1 : limit ≤ fetched
    · rw [if_pos h1]; exact hk
    · rw [if_neg h1]
      by_cases h2 : a.created_utc < cutoff
      · rw [if_pos h2]; exact hk
      · rw [if_neg h2]
        cases hcs : classifyStatus a.action with
        | none => exact ih _ _ k hk
        | some status =>
          cases hnf : normalizeFullname a.target_fullname with
          | none => exact ih _ _ k hk
          | some fname =>
            dsimp only
            rcases hso : saveOutcome s.file s.seen (actionRecord a status fname) with ⟨f2, s2, wrote⟩
            have hk2 : k ∈ s2 := by
              have hm := saveOutcome_seen_mono s.file s.seen (actionRecord a status fname) k hk
              rw [hso] at hm
              exact hm
            exact ih _ _ k hk2

theorem modlogLoop_attempted_in_seen (cutoff : Rat) (limit : Nat) :
    ∀ (acts : List ModAction) (fetched : Nat) (s : RefreshState) (r : OutcomeRecord),
      r ∈ attemptedRecords cutoff limit acts fetched →
      recordKey r ∈ (modlogLoop cutoff limit acts fetched s).seen := by
  intro acts
  induction acts with
  | nil => intro fetched s r hr; cases hr
  | cons a rest ih =>
    intro fetched s r hr
    simp only [modlogLoop]
    simp only [attemptedRecords] at hr
    by_cases h1 : limit ≤ fetched
    · rw [if_pos h1] at hr; cases hr
    · rw [if_neg h1] at hr ⊢
      by_cases h2 : a.created_utc < cutoff
      · rw [if_pos h2] at hr; cases hr
      · rw [if_neg h2] at hr ⊢
        cases hcs : classifyStatus a.action with
        | none =>
          rw [hcs] at hr
          exact ih _ _ r hr
        | some status =>
          rw [hcs] at hr
          cases hnf : normalizeFullname a.target_fullname with
          | none =>
            rw [hnf] at hr
            exact ih _ _ r hr
          | some fname =>
            rw [hnf] at hr
            dsimp only
            dsimp only at hr
            rcases hso : saveOutcome s.file s.seen (actionRecord a status fname) with ⟨f2, s2, wrote⟩
            rcases List.mem_cons.mp hr with hre | hrr
            · have hks : recordKey r ∈ s2 := by
                rw [hre]
                have hm := saveOutcome_key_mem s.file s.seen (actionRecord a status fname)
                rw [hso] at hm
                exact hm
              exact modlogLoop_seen_mono cutoff limit rest _ _ (recordKey r) hks
            · exact ih _ _ r hrr

theorem modlogLoop_noop_of_attempted_seen (cutoff : Rat) (limit : Nat) :
    ∀ (acts : List ModAction) (fetched : Nat) (s : RefreshState),
      (∀ r ∈ attemptedRecords cutoff limit acts fetched, recordKey r ∈ s.seen) →
      (modlogLoop cutoff limit acts fetched s).file = s.file
      ∧ (modlogLoop cutoff limit acts fetched s).seen = s.seen
      ∧ (modlogLoop cutoff limit acts fetched s).written = s.written := by
  intro acts
  induction acts with
  | nil => intro fetched s h; exact ⟨rfl, rfl, rfl⟩
  | cons a rest ih =>
    intro fetched s h
    simp only [modlogLoop]
    simp only [attemptedRecords] at h
    by_cases h1 : limit ≤ fetched
    · rw [if_pos h1]; exact ⟨rfl, rfl, rfl⟩
    · rw [if_neg h1] at h ⊢
      by_cases h2 : a.created_utc < cutoff
      · rw [if_pos h2]; exact ⟨rfl, rfl, rfl⟩
      · rw [if_neg h2] at h ⊢
        cases hcs : classifyStatus a.action with
        | none =>
          rw [hcs] at h
          exact ih _ _ h
        | some status =>
          rw [hcs] at h
          cases hnf : normalizeFullname a.target_fullname with
          | none =>
            rw [hnf] at h
            exact ih _ _ h
          | some fname =>
            rw [hnf] at h
            dsimp only
            dsimp only at h
            have hkey : recordKey (actionRecord a status fname) ∈ s.seen :=
              h _ (List.mem_cons_self _ _)
            rw [saveOutcome_of_mem s.file s.seen (actionRecord a status fname) hkey]
            exact ih _ _ (fun r hr => h r (List.mem_cons_of_mem _ hr))

theorem readSeenKeys_append_one (f : List OutcomeRecord) (r : OutcomeRecord) :
    readSeenKeys (f ++ [r])
      = readSeenKeys f ++ (if seenQualifies r then [recordKey r] else []) := by
  unfold readSeenKeys recordKey
  rw [List.filter_append, List.map_append]
  cases h : seenQualifies r <;> simp [h]

theorem pyStartsWith_ne_empty (s p : String) (hp : p.data ≠ []) (h : pyStartsWith s p = true) :
    s ≠ "" := by
  intro hs
  subst hs
  unfold pyStartsWith at h
  rw [show ("" : String).data = [] from rfl] at h
  cases hpd : p.data with
  | nil => exact hp hpd
  | cons c cs => rw [hpd] at h; simp [List.isPrefixOf] at h

theorem actionRecord_qualifies (a : ModAction) (status fname : String)
    (hcs : classifyStatus a.action = some status)
    (hnf : normalizeFullname a.target_fullname = some fname)
    (hcr : (1 : Rat) ≤ a.created_utc) :
    seenQualifies (actionRecord a status fname) = true := by
  have hst : status = "approved" ∨ status = "removed" := by
    unfold classifyStatus at hcs
    dsimp only at hcs
    split_ifs at hcs with ha hb
    · exact Or.inl (Option.some.inj hcs).symm
    · exact Or.inr (Option.some.inj hcs).symm
  have hfn : fname ≠ "" := by
    unfold normalizeFullname at hnf
    cases hft : a.target_fullname with
    | none => rw [hft] at hnf; cases hnf
    | some f0 =>
      rw [hft] at hnf
      dsimp only at hnf
      split_ifs at hnf with he hsw
      · have hf : fname = pyStrip f0 := (Option.some.inj hnf).symm
        subst hf
        have hsw2 : pyStartsWith (pyStrip f0) "t1_" = true ∨ pyStartsWith (pyStrip f0) "t3_" = true := by
          simpa using hsw
        rcases hsw2 with h | h
        · exact pyStartsWith_ne_empty _ "t1_" (by decide) h
        · exact pyStartsWith_ne_empty _ "t3_" (by decide) h
  have htr : (1 : Int) ≤ pyTrunc a.created_utc := by
    unfold pyTrunc
    rw [if_neg (not_lt.mpr (le_trans zero_le_one hcr))]
    exact Rat.le_floor.mpr (by exact_mod_cast hcr)
  unfold seenQualifies
  dsimp only [actionRecord]
  have h1b : (fname != "") = true := bne_iff_ne.mpr hfn
  have h3 : (pyTrunc a.created_utc != 0) = true := bne_iff_ne.mpr (by omega)
  rcases hst with h | h <;> subst h <;> simp [h1b, h3]

theorem modlogLoop_seen_sub_file (cutoff : Rat) (limit : Nat) (hc : (1 : Rat) ≤ cutoff) :
    ∀ (acts : List ModAction) (fetched : Nat) (s : RefreshState),
      (∀ k ∈ s.seen, k ∈ readSeenKeys s.file) →
      ∀ k ∈ (modlogLoop cutoff limit acts fetched s).seen,
        k ∈ readSeenKeys (modlogLoop cutoff limit acts fetched s).file := by
  intro acts
  induction acts with
  | nil => intro fetched s hinv k hk; exact hinv k hk
  | cons a rest ih =>
    intro fetched s hinv k hk
    simp only [modlogLoop] at hk ⊢
    by_cases h1 : limit ≤ fetched
    · rw [if_pos h1] at hk ⊢; exact hinv k hk
    · rw [if_neg h1] at hk ⊢
      by_cases h2 : a.created_utc < cutoff
      · rw [if_pos h2] at hk ⊢; exact hinv k hk
      · rw [if_neg h2] at hk ⊢
        cases hcs : classifyStatus a.action with
        | none =>
          rw [hcs] at hk
          dsimp only at hk
          exact ih _ (⟨s.file, s.seen, s.written, s.scanned + 1⟩ : RefreshState) hinv k hk
        | some status =>
          rw [hcs] at hk
          dsimp only at hk
          cases hnf : normalizeFullname a.target_fullname with
          | none =>
            rw [hnf] at hk
            dsimp only at hk
            exact ih _ (⟨s.file, s.seen, s.written, s.scanned + 1⟩ : RefreshState) hinv k hk
          | some fname =>
            rw [hnf] at hk
            dsimp only at hk ⊢
            by_cases hm : recordKey (actionRecord a status fname) ∈ s.seen
            · rw [saveOutcome_of_mem s.file s.seen _ hm] at hk ⊢
              exact ih _ (⟨s.file, s.seen, s.written, s.scanned + 1⟩ : RefreshState) hinv k hk
            · rw [saveOutcome_of_not_mem s.file s.seen _ hm] at hk ⊢
              refine ih _ _ ?_ k hk
              intro k2 hk2
              rcases List.mem_append.mp hk2 with hk2a | hk2b
              · rw [readSeenKeys_append_one]
                exact List.mem_append_left _ (hinv k2 hk2a)
              · rw [readSeenKeys_append_one,
                  actionRecord_qualifies a status fname hcs hnf (le_trans hc (not_lt.mp h2))]
                rcases List.mem_singleton.mp hk2b with h
                exact List.mem_append_right _ (by simp [h])

theorem runAll_seen_mono (cutoff : Rat) (limit : Nat) :
    ∀ (subs : List (List ModAction)) (s : RefreshState) (k : String), k ∈ s.seen →
      k ∈ (subs.foldl (fun st acts => modlogLoop cutoff limit acts 0 st) s).seen := by
  intro subs
  induction subs with
  | nil => intro s k hk; exact hk
  | cons acts rest ih =>
    intro s k hk
    rw [List.foldl_cons]
    exact ih _ k (modlogLoop_seen_mono cutoff limit acts 0 s k hk)

theorem runAll_attempted_in_seen (cutoff : Rat) (limit : Nat) :
    ∀ (subs : List (List ModAction)) (s : RefreshState) (acts : List ModAction),
      acts ∈ subs → ∀ r ∈ attemptedRecords cutoff limit acts 0,
      recordKey r ∈ (subs.foldl (fun st acts2 => modlogLoop cutoff limit acts2 0 st) s).seen := by
  intro subs
  induction subs with
  | nil => intro s acts ha; cases ha
  | cons acts0 rest ih =>
    intro s acts ha r hr
    rw [List.foldl_cons]
    rcases List.mem_cons.mp ha with hae | har
    · subst hae
      exact runAll_seen_mono cutoff limit rest _ (recordKey r)
        (modlogLoop_attempted_in_seen cutoff limit acts 0 s r hr)
    · exact ih _ acts har r hr

theorem runAll_seen_sub_file (cutoff : Rat) (limit : Nat) (hc : (1 : Rat) ≤ cutoff) :
    ∀ (subs : List (List ModAction)) (s : RefreshState),
      (∀ k ∈ s.seen, k ∈ readSeenKeys s.file) →
      ∀ k ∈ (subs.foldl (fun st acts => modlogLoop cutoff limit acts 0 st) s).seen,
        k ∈ readSeenKeys (subs.foldl (fun st acts => modlogLoop cutoff limit acts 0 st) s).file := by
  intro subs
  induction subs with
  | nil => intro s hinv k hk; exact hinv k hk
  | cons acts rest ih =>
    intro s hinv k hk
    rw [List.foldl_cons] at hk ⊢
    exact ih _ (modlogLoop_seen_sub_file cutoff limit hc acts 0 s hinv) k hk

theorem runAll_noop (cutoff : Rat) (limit : Nat) :
    ∀ (subs : List (List ModAction)) (s : RefreshState),
      (∀ acts ∈ subs, ∀ r ∈ attemptedRecords cutoff limit acts 0, recordKey r ∈ s.seen) →
      (subs.foldl (fun st acts => modlogLoop cutoff limit acts 0 st) s).file = s.file
      ∧ (subs.foldl (fun st acts => modlogLoop cutoff limit acts 0 st) s).seen = s.seen
      ∧ (subs.foldl (fun st acts => modlogLoop cutoff limit acts 0 st) s).written = s.written := by
  intro subs
  induction subs with
  | nil => intro s h; exact ⟨rfl, rfl, rfl⟩
  | cons acts rest ih =>
    intro s h
    rw [List.foldl_cons]
    have h0 := modlogLoop_noop_of_attempted_seen cutoff limit acts 0 s
      (h acts (List.mem_cons_self _ _))
    have hrest := ih (modlogLoop cutoff limit acts 0 s)
      (fun a2 ha2 r hr => by
        rw [h0.2.1]
        exact h a2 (List.mem_cons_of_mem _ ha2) r hr)
    exact ⟨hrest.1.trans h0.1, hrest.2.1.trans h0.2.1, hrest.2.2.trans h0.2.2⟩

/-- C9: moderation-log reconciliation is idempotent over repeated
scans: running refresh_modlog a second time, on the very same action
lists, over the outcomes file produced by the first run appends no line
and reports zero written outcomes, because every record is deduplicated
by its composite (target_fullname, status, created_utc) key against the
keys already recorded in the file.  The cutoff of a real run is a
recent epoch time, hence the hypothesis that it is at least 1. -/
theorem c9_rescan_is_noop (file : List OutcomeRecord) (subActions : List (List ModAction))
    (cutoff : Rat) (limit : Nat) (hc : (1 : Rat) ≤ cutoff) :
    (refresh_modlog (refresh_modlog file subActions cutoff limit).1 subActions cutoff limit).1
      = (refresh_modlog file subActions cutoff limit).1
    ∧ (refresh_modlog (refresh_modlog file subActions cutoff limit).1 subActions cutoff limit).2.1
      = 0 := by
  unfold refresh_modlog
  dsimp only
  have hatt : ∀ acts ∈ subActions, ∀ r ∈ attemptedRecords cutoff limit acts 0,
      recordKey r ∈ (subActions.foldl (fun st acts2 => modlogLoop cutoff limit acts2 0 st)
        (⟨file, readSeenKeys file, 0, 0⟩ : RefreshState)).seen :=
    fun acts ha r hr => runAll_attempted_in_seen cutoff limit subActions _ acts ha r hr
  have hinv : ∀ k ∈ (subActions.foldl (fun st acts2 => modlogLoop cutoff limit acts2 0 st)
        (⟨file, readSeenKeys file, 0, 0⟩ : RefreshState)).seen,
      k ∈ readSeenKeys (subActions.foldl (fun st acts2 => modlogLoop cutoff limit acts2 0 st)
        (⟨file, readSeenKeys file, 0, 0⟩ : RefreshState)).file :=
    runAll_seen_sub_file cutoff limit hc subActions _ (fun k hk => hk)
  have hno := runAll_noop cutoff limit subActions
    (⟨(subActions.foldl (fun st acts2 => modlogLoop cutoff limit acts2 0 st)
        (⟨file, readSeenKeys file, 0, 0⟩ : RefreshState)).file,
      readSeenKeys (subActions.foldl (fun st acts2 => modlogLoop cutoff limit acts2 0 st)
        (⟨file, readSeenKeys file, 0, 0⟩ : RefreshState)).file, 0, 0⟩ : RefreshState)
    (fun acts ha r hr => hinv _ (hatt acts ha r hr))
  exact ⟨hno.1, hno.2.2⟩

/-- C9 witness: a concrete rescan of a one-action moderation log writes
a record once and nothing the second time. -/
theorem c9_witness :
    (refresh_modlog (refresh_modlog [] [[c9Action]] 1 10).1 [[c9Action]] 1 10).1
      = (refresh_modlog [] [[c9Action]] 1 10).1
    ∧ (refresh_modlog (refresh_modlog [] [[c9Action]] 1 10).1 [[c9Action]] 1 10).2.1 = 0 :=
  c9_rescan_is_noop [] [[c9Action]] 1 10 (le_refl 1)

theorem attemptLoop_fst_none (call : String → Nat → CallOutcome) (model : String)
    (mr : Nat) (now : Rat) (h : ∀ a, isOkOutcome (call model a) = false) :
    ∀ (fuel attempt : Nat) (cds : List (String × Rat)),
      (attemptLoop call model mr now fuel attempt cds).1 = none := by
  intro fuel
  induction fuel with
  | zero => intro attempt cds; rfl
  | succ n ih =>
    intro attempt cds
    simp only [attemptLoop]
    cases hc : call model attempt with
    | ok raw rem =>
      have := h attempt
      rw [hc] at this
      exact absurd this (by simp [isOkOutcome])
    | err txt hdr =>
      dsimp only
      by_cases h1 : isRateLimitError txt = true
      · rw [if_pos h1]
        by_cases h2 : dailyExhausted txt = true
        · rw [if_pos h2]
        · rw [if_neg h2]
          cases hsw : suggestedWait hdr txt with
          | none =>
            dsimp only
            by_cases h3 : attempt + 1 < mr
            · rw [if_pos h3]; exact ih _ _
            · rw [if_neg h3]
          | some w =>
            dsimp only
            by_cases h3 : (w ≤ 30 && decide (attempt + 1 < mr)) = true
            · rw [if_pos h3]; exact ih _ _
            · rw [if_neg h3]
              by_cases h4 : w > 30
              · rw [if_pos h4]
              · rw [if_neg h4]
      · rw [if_neg h1]

theorem modelLoop_fst_none (call : String → Nat → CallOutcome) (now : Rat) (xai : Bool)
    (h : ∀ m a, isOkOutcome (call m a) = false) :
    ∀ (models : List String) (idx : Nat) (cds : List (String × Rat)),
      (modelLoop call now xai models idx cds).1 = none := by
  intro models
  induction models with
  | nil => intro idx cds; rfl
  | cons m rest ih =>
    intro idx cds
    simp only [modelLoop]
    by_cases h1 : now < cdGet cds m
    · rw [if_pos h1]; exact ih _ _
    · rw [if_neg h1]
      by_cases h2 : (isXaiModel m && !xai) = true
      · rw [if_pos h2]; exact ih _ _
      · rw [if_neg h2]
        rcases hal : attemptLoop call m (if idx > 0 then 2 else 3) now
            (if idx > 0 then 2 else 3) 0 cds with ⟨o, cds2⟩
        have ho : o = none := by
          have := attemptLoop_fst_none call m (if idx > 0 then 2 else 3) now
            (fun a => h m a) (if idx > 0 then 2 else 3) 0 cds
          rw [hal] at this
          exact this
        subst ho
        exact ih _ _

/-- C1: when every chat-completion attempt on every model fails (each
call raises: rate limited or any other error, with models on cooldown
or lacking credentials skipped outright), analyze does not propagate
any exception: it returns an AnalysisResult whose verdict is BENIGN —
never REPORT — and whose reason notes LLM unavailability, for every
input text and every pre-filter score. -/
theorem c1_unavailable_defaults_benign (cfg : AnalyzerCfg) (call : String → Nat → CallOutcome)
    (now : Rat) (today : String) (st : LLMState) (text subreddit parent_context : String)
    (detoxify_score : Rat) (is_top_level : Bool) (post_title : String) (scores : ScoreMap)
    (h : ∀ m a, isOkOutcome (call m a) = false) :
    (analyze cfg call now today st text subreddit parent_context detoxify_score is_top_level
        post_title scores).1
      = { verdict := Verdict.BENIGN
          reason := "LLM unavailable - skipped (detox=" ++ fmt2 detoxify_score ++ ")"
          confidence := "low"
          raw_response := ""
          detoxify_score := detoxify_score } := by
  unfold analyze
  dsimp only
  rcases hml : modelLoop call now cfg.xai_available
      (modelsToTry cfg.primary_model cfg.fallback_chain) 0
      (if (today != st.last_reset_date) = true then [] else st.cooldowns) with ⟨o, cds1⟩
  have ho : o = none := by
    have := modelLoop_fst_none call now cfg.xai_available h
      (modelsToTry cfg.primary_model cfg.fallback_chain) 0
      (if (today != st.last_reset_date) = true then [] else st.cooldowns)
    rw [hml] at this
    exact this
  subst ho
  rfl

/-- C1 witness: with every model failing, a concrete analyze call
returns the BENIGN unavailability result. -/
theorem c1_witness :
    (analyze c2AnalyzerCfg c1FailCall 0 "2026-02-03" c2LLMState "you are dumb" "x" "" 1 false ""
        []).1
      = { verdict := Verdict.BENIGN
          reason := "LLM unavailable - skipped (detox=" ++ fmt2 1 ++ ")"
          confidence := "low"
          raw_response := ""
          detoxify_score := 1 } :=
  c1_unavailable_defaults_benign c2AnalyzerCfg c1FailCall 0 "2026-02-03" c2LLMState
    "you are dumb" "x" "" 1 false "" [] (fun _ _ => rfl)

/-- C2 counterexample: reprocessing an item whose id is already in the
persisted tracked store is not a no-op.  The pre-filter scoring pass
runs again and, on a REPORT verdict, a report is filed again — only the
persisted record is deduplicated.  This contradicts the claim that for
an already-seen id no scoring work is repeated and no duplicate report
is filed. -/
theorem c2_counterexample :
    c2State.tracked.any (fun c => c.comment_id == c2Item.fullname) = true
    ∧ c2Run.effects
        = [Effect.prefilterRun "i will hurt you", Effect.sentToLLM "i will hurt you",
           Effect.reportFiled "t1_abc" "directed insult"] := by
  exact ⟨rfl, rfl⟩

theorem track_reported_comment_dup (comments : List TrackedRecord)
    (comment_id permalink text groq_reason : String) (ds : Rat) (itl : Bool) (nw : Int)
    (h : comments.any (fun c => c.comment_id == comment_id) = true) :
    track_reported_comment comments comment_id permalink text groq_reason ds itl nw = comments := by
  unfold track_reported_comment
  rw [if_pos h]

/-- C2 (amended): process_thing performs no deduplication against the
persisted state — an already-tracked item is re-scored and, on a REPORT
verdict, re-reported (see the counterexample) — but no duplicate
persisted record is ever created: when the item id is already present
in the tracked store, the store is left exactly unchanged, because
track_reported_comment refuses duplicate ids. -/
theorem c2_amended_store_unchanged (cfg : BotConfig) (acfg : AnalyzerCfg)
    (call : String → Nat → CallOutcome) (checks : TextChecks) (env : ScorerEnv)
    (reportSucceeds : Bool) (now : Rat) (nowInt : Int) (today : String) (item : Item)
    (st : BotState) (lst : LLMState)
    (h : st.tracked.any (fun c => c.comment_id == item.fullname) = true) :
    (process_thing cfg acfg call checks env reportSucceeds now nowInt today item st
        lst).state.tracked
      = st.tracked := by
  unfold process_thing
  cases ht : item.textOf with
  | none => rfl
  | some text =>
    dsimp only
    repeat' split
    all_goals first
      | rfl
      | exact track_reported_comment_dup _ item.fullname _ _ _ _ _ _ h

/-- C2 witness (for the amended claim): the concrete reprocessing run
of the counterexample leaves the tracked store exactly unchanged. -/
theorem c2_amended_witness :
    (process_thing c2Config c2AnalyzerCfg c2Call threatOnlyChecks noScorerEnv true
        0 100 "2026-02-03" c2Item c2State c2LLMState).state.tracked = c2State.tracked :=
  c2_amended_store_unchanged c2Config c2AnalyzerCfg c2Call threatOnlyChecks noScorerEnv true
    0 100 "2026-02-03" c2Item c2State c2LLMState rfl

end ToxicReportBot
